import Mathlib

/-!
Verification of the rs3a animated-ASCII-art document model.

Characters are modelled by their Unicode code points as natural numbers.
Strings from the source are modelled as lists of code points.  Rust's
`usize`/`u8` values are modelled as `Nat` (with explicit bounds where the
source guarantees them).  Fallible operations return `Except Error` or
`Option`, mirroring the source's `Result`.
-/

set_option maxRecDepth 8000
set_option maxHeartbeats 1000000
set_option linter.unreachableTactic false
set_option linter.unusedTactic false

namespace RS3A

/-- Errors of the 3a format (src/error.rs), restricted to the constructors
reachable from the verified operations.  String-typed payloads that only
carry diagnostic text are kept as the corresponding data. -/
inductive Error where
  | DisallowedChar : Nat → Error
  | StrToCharConversion : Nat → Error
  | ColorParsing : List Nat → Error
  | ColorDuplicate : String → List Nat → Error
  | ColorMapDup : Nat → Error
  | WidthMismatch : Error
  | HeightMismatch : Error
  | FramesMismatch : Error
  | ColorsMismatch : Error
  | VoidTextChannel : Error
  | BlockDup : String → Error
  | BlockExpected : String → Error
deriving DecidableEq, Repr

instance exceptDecEq {ε α : Type} [DecidableEq ε] [DecidableEq α] :
    DecidableEq (Except ε α)
  | .ok a, .ok b =>
    if h : a = b then .isTrue (by rw [h])
    else .isFalse (by intro hh; injection hh; contradiction)
  | .ok _, .error _ => .isFalse (by intro hh; cases hh)
  | .error _, .ok _ => .isFalse (by intro hh; cases hh)
  | .error e, .error f =>
    if h : e = f then .isTrue (by rw [h])
    else .isFalse (by intro hh; injection hh; contradiction)

/-- src/chars.rs `check_char`: allow-list check over one code point.
Whitespace variants normalize to the plain space 0x20; control, combining,
zero-width, bidi and surrogate code points are rejected.  The Rust
`[...].contains(&cp)` test is rendered as the equivalent disjunction. -/
def check_char (cp : Nat) : Option Nat :=
  if cp = 0x20 then some 0x20
  else if cp = 0x09 then some 0x20
  else if cp = 0x180E then some 0x20
  else if cp = 0xA0 ∨ cp = 0x1680 ∨ (0x2000 ≤ cp ∧ cp ≤ 0x200A) ∨
          cp = 0x202F ∨ cp = 0x205F ∨ cp = 0x3000 then some 0x20
  else if cp ≤ 0x1F then none
  else if cp = 0x7F ∨ cp = 0x81 ∨ cp = 0x8D ∨ cp = 0x8F ∨ cp = 0x90 ∨
          cp = 0x9D ∨ cp = 0xA0 then none
  else if 0x300 ≤ cp ∧ cp ≤ 0x36F then none
  else if (0x200B ≤ cp ∧ cp ≤ 0x200F) ∨ cp = 0xFEFF ∨
          (0xFE00 ≤ cp ∧ cp ≤ 0xFE0F) then none
  else if (0x202A ≤ cp ∧ cp ≤ 0x202E) ∨ (0x2066 ≤ cp ∧ cp ≤ 0x2069) then none
  else if 0xD800 ≤ cp ∧ cp ≤ 0xDFFF then none
  else some cp

/-- src/chars.rs `normalize_text`: keep exactly the characters passed by
`check_char`, in their normalized form; rejected characters are dropped. -/
def normalize_text (s : List Nat) : List Nat :=
  s.filterMap check_char

/-- src/chars.rs `Char`: a validated character, stored by code point. -/
structure Char where
  char : Nat
deriving DecidableEq, Repr

/-- src/chars.rs `Char::new`: validate, normalizing whitespace. -/
def Char.new (ch : Nat) : Except Error Char :=
  match check_char ch with
  | some ok => .ok ⟨ok⟩
  | none => .error (.DisallowedChar ch)

/-- src/chars.rs `SPACE`. -/
def SPACE : Char := ⟨0x20⟩

/-- src/chars.rs `UNDERSCORE`. -/
def UNDERSCORE : Char := ⟨0x5F⟩

lemma check_char_idem {cp d : Nat} (h : check_char cp = some d) :
    check_char d = some d := by
  unfold check_char at h
  split_ifs at h with h1 h2 h3 h4 h5 h6 h7 h8 h9 h10 <;>
    first
      | exact Option.noConfusion h
      | (injection h with h; subst h; decide)
      | (injection h with h; subst h; unfold check_char;
         rw [if_neg h1, if_neg h2, if_neg h3, if_neg h4, if_neg h5, if_neg h6,
             if_neg h7, if_neg h8, if_neg h9, if_neg h10])

lemma check_char_of_mem_normalize {s : List Nat} {c : Nat}
    (h : c ∈ normalize_text s) : check_char c = some c := by
  unfold normalize_text at h
  obtain ⟨a, _, ha⟩ := List.mem_filterMap.mp h
  exact check_char_idem ha

lemma normalize_text_idem (s : List Nat) :
    normalize_text (normalize_text s) = normalize_text s := by
  unfold normalize_text
  induction s with
  | nil => rfl
  | cons c rest ih =>
    cases hc : check_char c with
    | none => simp [List.filterMap_cons, hc, ih]
    | some d =>
      simp only [List.filterMap_cons, hc, check_char_idem hc]
      exact congrArg (d :: ·) ih

/-! ## Color model (src/colors.rs) -/

/-- src/colors.rs `Color4`: the four-bit ANSI color set. -/
inductive Color4 where
  | Black | Red | Green | Yellow | Blue | Magenta | Cyan | White
deriving DecidableEq, Repr

/-- src/colors.rs `Color`. -/
inductive Color where
  | None : Color
  | Color4 : Color4 → Bool → Color
  | Color256 : Nat → Color
  | RGB : Nat → Nat → Nat → Color
deriving DecidableEq, Repr

/-- src/colors.rs `Color::from_char_builtin`: the built-in 0-9a-f mapping
(code points: 0-9 are 0x30-0x39, a-f are 0x61-0x66). -/
def Color.from_char_builtin (c : Char) : Color :=
  if c.char = 0x30 then .Color4 .Black false
  else if c.char = 0x31 then .Color4 .Red false
  else if c.char = 0x32 then .Color4 .Green false
  else if c.char = 0x33 then .Color4 .Yellow false
  else if c.char = 0x34 then .Color4 .Blue false
  else if c.char = 0x35 then .Color4 .Magenta false
  else if c.char = 0x36 then .Color4 .Cyan false
  else if c.char = 0x37 then .Color4 .White false
  else if c.char = 0x38 then .Color4 .Black true
  else if c.char = 0x39 then .Color4 .Red true
  else if c.char = 0x61 then .Color4 .Green true
  else if c.char = 0x62 then .Color4 .Yellow true
  else if c.char = 0x63 then .Color4 .Blue true
  else if c.char = 0x64 then .Color4 .Magenta true
  else if c.char = 0x65 then .Color4 .Cyan true
  else if c.char = 0x66 then .Color4 .White true
  else .None

instance : Inhabited Color := ⟨.None⟩

/-- Code points of a Lean string literal; used to transcribe the string
literals of the source. -/
def lit (s : String) : List Nat :=
  s.toList.map (fun c => c.toNat)

/-- Rust `char::is_whitespace` (the Unicode White_Space property),
used by `str::trim`. -/
def rust_is_whitespace (c : Nat) : Bool :=
  (0x09 ≤ c && c ≤ 0x0D) || c = 0x20 || c = 0x85 || c = 0xA0 || c = 0x1680 ||
    (0x2000 ≤ c && c ≤ 0x200A) || c = 0x2028 || c = 0x2029 || c = 0x202F ||
    c = 0x205F || c = 0x3000

/-- Rust `str::trim`: drop leading and trailing whitespace. -/
def rust_trim (s : List Nat) : List Nat :=
  ((s.dropWhile rust_is_whitespace).reverse.dropWhile rust_is_whitespace).reverse

/-- Rust `str::to_lowercase`, restricted to its ASCII case mappings.
Non-ASCII case mappings never produce the ASCII-only token shapes the
color parser recognizes, so they cannot change any branch outcome of
`Color::from_str`. -/
def rust_to_lowercase (s : List Nat) : List Nat :=
  s.map (fun c => if 0x41 ≤ c ∧ c ≤ 0x5A then c + 0x20 else c)

/-- UTF-8 encoding of one code point (byte-level view of Rust `str`). -/
def utf8Bytes (c : Nat) : List Nat :=
  if c < 0x80 then [c]
  else if c < 0x800 then [0xC0 + c / 0x40, 0x80 + c % 0x40]
  else if c < 0x10000 then
    [0xE0 + c / 0x1000, 0x80 + c / 0x40 % 0x40, 0x80 + c % 0x40]
  else
    [0xF0 + c / 0x40000, 0x80 + c / 0x1000 % 0x40, 0x80 + c / 0x40 % 0x40,
     0x80 + c % 0x40]

/-- UTF-8 byte sequence of a string (Rust `str::len` is the length of
this list, and `&s[a..b]` slices it). -/
def utf8Encode (s : List Nat) : List Nat :=
  (s.map utf8Bytes).flatten

def isAsciiDigit (c : Nat) : Bool :=
  0x30 ≤ c && c ≤ 0x39

/-- Decimal value of a digit string. -/
def decValue (s : List Nat) : Nat :=
  s.foldl (fun acc c => acc * 10 + (c - 0x30)) 0

/-- Rust `str::parse::<u8>`: an optional leading plus sign, then one or
more ASCII decimal digits; the checked accumulation fails exactly when
the value exceeds 255. -/
def parse_u8 (s : List Nat) : Option Nat :=
  match s with
  | [] => none
  | c :: rest =>
    let digits := if c = 0x2B then rest else s
    if digits = [] then none
    else if digits.all isAsciiDigit then
      let v := decValue digits
      if v ≤ 255 then some v else none
    else none

def hexDigitVal (c : Nat) : Nat :=
  if 0x30 ≤ c ∧ c ≤ 0x39 then c - 0x30
  else if 0x61 ≤ c ∧ c ≤ 0x66 then c - 0x61 + 10
  else if 0x41 ≤ c ∧ c ≤ 0x46 then c - 0x41 + 10
  else 16

def isHexDigitCh (c : Nat) : Bool :=
  hexDigitVal c < 16

def hexValue (s : List Nat) : Nat :=
  s.foldl (fun acc c => acc * 16 + hexDigitVal c) 0

/-- Rust `u8::from_str_radix(s, 16)`: an optional leading plus sign, then
one or more hex digits (either case), value at most 255. -/
def parse_hex_u8 (s : List Nat) : Option Nat :=
  match s with
  | [] => none
  | c :: rest =>
    let digits := if c = 0x2B then rest else s
    if digits = [] then none
    else if digits.all isHexDigitCh then
      let v := hexValue digits
      if v ≤ 255 then some v else none
    else none

/-- The color-name match arms of src/colors.rs `Color::from_str`, in
source order, rendered as a first-match lookup table. -/
def colorNameTable : List (List Nat × Color) :=
  [(lit "black", .Color4 .Black false),
   (lit "red", .Color4 .Red false),
   (lit "green", .Color4 .Green false),
   (lit "yellow", .Color4 .Yellow false),
   (lit "blue", .Color4 .Blue false),
   (lit "magenta", .Color4 .Magenta false),
   (lit "cyan", .Color4 .Cyan false),
   (lit "white", .Color4 .White false),
   (lit "bright-black", .Color4 .Black true),
   (lit "gray", .Color4 .Black true),
   (lit "grey", .Color4 .Black true),
   (lit "bright-red", .Color4 .Red true),
   (lit "bright-green", .Color4 .Green true),
   (lit "bright-yellow", .Color4 .Yellow true),
   (lit "bright-blue", .Color4 .Blue true),
   (lit "bright-magenta", .Color4 .Magenta true),
   (lit "bright-cyan", .Color4 .Cyan true),
   (lit "bright-white", .Color4 .White true)]

/-- src/colors.rs `Color::from_str`: trim and lowercase, try the color
names, then a 0-255 decimal, then exactly six bytes of hex RGB.  A Rust
byte-slice panic on a non-boundary index cannot occur on any path that
returns `Ok`; such inputs are reported here as a parse error. -/
def Color.from_str (s : List Nat) : Except Error Color :=
  let t := rust_to_lowercase (rust_trim s)
  match colorNameTable.lookup t with
  | some c => .ok c
  | none =>
    match parse_u8 t with
    | some c => .ok (.Color256 c)
    | none =>
      let err : Error := .ColorParsing t
      let bs := utf8Encode t
      if bs.length ≠ 6 then .error err
      else
        match parse_hex_u8 (bs.take 2), parse_hex_u8 ((bs.drop 2).take 2),
              parse_hex_u8 (bs.drop 4) with
        | some r, some g, some b => .ok (.RGB r g b)
        | _, _, _ => .error err

/-- Lowercase hex digit characters: what `Display` emits for RGB. -/
def isHexLowerCh (c : Nat) : Bool :=
  isAsciiDigit c || (0x61 ≤ c && c ≤ 0x66)

/-- Modelled from the spec (§6 color token grammar): a color token is,
after trimming and case folding, a color name, a bare 0-255 decimal, or
exactly six hex digits.  This is the spec's description of
`Color::from_str`'s accepted language; the code additionally accepts
embedded plus signs, which is what claim C4's counterexample exploits. -/
def SpecColorToken (s : List Nat) : Prop :=
  (∃ e ∈ colorNameTable, rust_to_lowercase (rust_trim s) = e.1) ∨
  (rust_to_lowercase (rust_trim s) ≠ [] ∧
    (rust_to_lowercase (rust_trim s)).all isAsciiDigit = true ∧
    decValue (rust_to_lowercase (rust_trim s)) ≤ 255) ∨
  ((rust_to_lowercase (rust_trim s)).length = 6 ∧
    (rust_to_lowercase (rust_trim s)).all isHexDigitCh = true)

def hexDigitCh (k : Nat) : Nat :=
  if k < 10 then 0x30 + k else 0x61 + k - 10

/-- Rust `{:02x}` of a byte: exactly two lowercase hex digits. -/
def hex2 (n : Nat) : List Nat :=
  [hexDigitCh (n / 16 % 16), hexDigitCh (n % 16)]

/-- Decimal rendering of a `Nat` (Rust `{}` on an unsigned integer). -/
def natDecimal (n : Nat) : List Nat :=
  (Nat.toDigits 10 n).map (fun c => c.toNat)

/-- src/colors.rs `impl fmt::Display for Color`: empty for `None`, the
(possibly `bright-`-prefixed) name for 4-bit colors, the decimal index
for 256-colors, six lowercase hex digits for RGB. -/
def Color.display : Color → List Nat
  | .None => []
  | .Color4 c b =>
    (if b then lit "bright-" else []) ++
      (match c with
       | .Black => lit "black"
       | .Red => lit "red"
       | .Green => lit "green"
       | .Yellow => lit "yellow"
       | .Blue => lit "blue"
       | .Magenta => lit "magenta"
       | .Cyan => lit "cyan"
       | .White => lit "white")
  | .Color256 c => natDecimal c
  | .RGB r g b => hex2 r ++ hex2 g ++ hex2 b

/-- src/colors.rs `ColorPair`. -/
structure ColorPair where
  fg : Color
  bg : Color
deriving DecidableEq, Repr

instance : Inhabited ColorPair := ⟨⟨.None, .None⟩⟩

/-- `ColorPair::default()`: both channels `None`. -/
def ColorPair.default : ColorPair := ⟨.None, .None⟩

/-- src/colors.rs `ColorPair::from_char_builtin`. -/
def ColorPair.from_char_builtin (c : Char) : ColorPair :=
  ⟨Color.from_char_builtin c, .None⟩

/-- src/comments.rs `Comments`. -/
def Comments := List String
deriving DecidableEq

/-- src/colors.rs `Palette`: an insertion-ordered map from validated
characters to a color pair and comments, modelled as the underlying
entry list.  The `OrderMap` invariant (each key occurs once) is carried
as a hypothesis where a proof needs it. -/
structure Palette where
  palette : List (Char × (ColorPair × Comments))
deriving DecidableEq

/-- `OrderMap::insert`: replace the value in place when the key is
present, otherwise append the new entry. -/
def omInsert (m : List (Char × (ColorPair × Comments))) (k : Char)
    (v : ColorPair × Comments) : List (Char × (ColorPair × Comments)) :=
  if m.any (fun e => e.1 = k) then
    m.map (fun e => if e.1 = k then (k, v) else e)
  else m ++ [(k, v)]

/-- `OrderMap::remove`: drop the entry with the given key. -/
def omRemove (m : List (Char × (ColorPair × Comments))) (k : Char) :
    List (Char × (ColorPair × Comments)) :=
  m.eraseP (fun e => e.1 == k)

/-- src/colors.rs `Palette::contains_color`. -/
def Palette.contains_color (p : Palette) (name : Char) : Bool :=
  p.palette.any (fun e => e.1 = name)

/-- src/colors.rs `Palette::get_color`: explicit entry, else built-in. -/
def Palette.get_color (p : Palette) (name : Char) : ColorPair :=
  match p.palette.lookup name with
  | some (pair, _) => pair
  | none => ColorPair.from_char_builtin name

/-- src/colors.rs `Palette::set_color`: remove the entry when the pair
equals the built-in default, else insert/overwrite. -/
def Palette.set_color (p : Palette) (name : Char) (col : ColorPair) : Palette :=
  if ColorPair.from_char_builtin name = col then
    ⟨omRemove p.palette name⟩
  else
    ⟨omInsert p.palette name (col, ([] : List String))⟩

/-- src/colors.rs `Palette::search_color`: first key carrying the pair. -/
def Palette.search_color (p : Palette) (col : ColorPair) : Option Char :=
  (p.palette.find? (fun e => e.2.1 = col)).map (fun e => e.1)

/-- src/colors.rs `trans_color`: legacy foreground digit permutation. -/
def trans_color (leacy : Nat) : Nat :=
  if leacy = 0x30 then 0x30
  else if leacy = 0x31 then 0x34
  else if leacy = 0x32 then 0x32
  else if leacy = 0x33 then 0x36
  else if leacy = 0x34 then 0x31
  else if leacy = 0x35 then 0x35
  else if leacy = 0x36 then 0x33
  else if leacy = 0x37 then 0x37
  else if leacy = 0x38 then 0x38
  else if leacy = 0x39 then 0x63
  else if leacy = 0x61 then 0x61
  else if leacy = 0x62 then 0x65
  else if leacy = 0x63 then 0x39
  else if leacy = 0x64 then 0x64
  else if leacy = 0x65 then 0x62
  else if leacy = 0x66 then 0x66
  else 0x5F

/-! ## Cell/Frame/Frames model (src/content.rs) -/

/-- src/content.rs `Cell`. -/
structure Cell where
  text : Char
  color : Option Char
deriving DecidableEq, Repr

/-- `Cell::default()`: a space with no color. -/
def Cell.default : Cell := ⟨SPACE, none⟩

instance : Inhabited Cell := ⟨Cell.default⟩

/-- src/content.rs `Cell::color`: whether a color is assigned. -/
def Cell.hasColor (c : Cell) : Bool :=
  c.color ≠ none

/-- src/content.rs `Frame`: the maintained color counter, the width and
the rows of cells. -/
structure Frame where
  color : Nat
  width : Nat
  rows : List (List Cell)
deriving DecidableEq, Repr

/-- `Frame::height`. -/
def Frame.height (f : Frame) : Nat :=
  f.rows.length

/-- The cell at (row, column); Rust's `rows[r][c]` indexing, total via a
default that is never reached on well-formed frames in bounds. -/
def Frame.cellAt (f : Frame) (r c : Nat) : Cell :=
  (f.rows.getD r []).getD c Cell.default

/-- Well-formedness: each row has exactly `width` cells (the constant
row-length invariant of §3). -/
def Frame.WF (f : Frame) : Prop :=
  ∀ row ∈ f.rows, row.length = f.width

/-- src/content.rs `Frame::new`. -/
def Frame.new (width height : Nat) (fill : Cell) : Frame :=
  { color := if fill.hasColor then width * height else 0,
    width := width,
    rows := List.replicate height (List.replicate width fill) }

/-- The number of cells with a color: the quantity `recalc_colors`
recomputes and `adjust_color` maintains. -/
def colorCount (rows : List (List Cell)) : Nat :=
  (rows.map (fun row => row.countP (fun cell => cell.hasColor))).sum

/-- src/content.rs `Frame::recalc_colors`. -/
def Frame.recalc_colors (f : Frame) : Frame :=
  { f with color := colorCount f.rows }

/-- src/content.rs `merge_frames`: text channel from `text`, color
channel from `color`; hard error on dimension mismatch.  The in-place
double loop over the grid is rendered as a map over the index ranges. -/
def merge_frames (text color : Frame) : Except Error Frame :=
  if text.height ≠ color.height then .error .HeightMismatch
  else if text.width ≠ color.width then .error .WidthMismatch
  else
    let f0 := Frame.new text.width text.height Cell.default
    let rows := (List.range f0.height).map (fun r =>
      (List.range f0.width).map (fun c =>
        { text := (text.cellAt r c).text, color := (color.cellAt r c).color }))
    .ok (Frame.recalc_colors { f0 with rows := rows })

/-- src/content.rs `Frame::adjust_color`: incremental counter update. -/
def Frame.adjust_color (f : Frame) (old new : Cell) : Frame :=
  match old.hasColor, new.hasColor with
  | true, true => f
  | true, false => { f with color := f.color - 1 }
  | false, true => { f with color := f.color + 1 }
  | false, false => f

/-- src/content.rs `Frame::set`. -/
def Frame.set (f : Frame) (column row : Nat) (new : Cell) : Frame :=
  if column < f.width ∧ row < f.height then
    let old := f.cellAt row column
    let f' := { f with rows := f.rows.set row ((f.rows.getD row []).set column new) }
    f'.adjust_color old new
  else f

/-- src/content.rs `Frame::get`. -/
def Frame.get (f : Frame) (column row : Nat) (default : Cell) : Cell :=
  if column < f.width ∧ row < f.height then f.cellAt row column
  else default

/-- src/content.rs `Frame::contains_text`. -/
def Frame.contains_text (f : Frame) (ch : Char) : Bool :=
  f.rows.any (fun row => row.any (fun c => c.text = ch))

/-- src/content.rs `Frame::contains_color`. -/
def Frame.contains_color (f : Frame) (col : Char) : Bool :=
  f.rows.any (fun row => row.any (fun c => c.color = some col))

/-- src/content.rs `Frames`. -/
structure Frames where
  text_pin : Option Frame
  color_pin : Option Frame
  width : Nat
  height : Nat
  frames : List Frame
deriving DecidableEq, Repr

/-- src/content.rs `Frames::contains_color`: some frame uses the color. -/
def Frames.contains_color (fs : Frames) (name : Char) : Bool :=
  fs.frames.any (fun frame => frame.contains_color name)

/-- src/content.rs `Frames::contains_text`: the loop body consults
`Frame::contains_color`, exactly as in the source. -/
def Frames.contains_text (fs : Frames) (ch : Char) : Bool :=
  fs.frames.any (fun frame => frame.contains_color ch)

/-- Consecutive-equality scan: the `last_text`/`last_color` comparison
chain of `Frames::pinned` along one cell position. -/
def chainAllEq : List (Option Char) → Bool
  | [] => true
  | [_] => true
  | x :: y :: rest => x = y && chainAllEq (y :: rest)

/-- src/content.rs `Frames::pinned`: derived pin state.  Fewer than two
frames report `(false, false)`; otherwise each channel is pinned when
every cell position agrees across all frames (the source's early exit
does not change the result). -/
def Frames.pinned (fs : Frames) : Bool × Bool :=
  if fs.frames.length < 2 then (false, false)
  else
    ((List.range fs.width).all (fun c => (List.range fs.height).all (fun r =>
        chainAllEq (fs.frames.map (fun fr => some (fr.cellAt r c).text)))),
     (List.range fs.width).all (fun c => (List.range fs.height).all (fun r =>
        chainAllEq (fs.frames.map (fun fr => (fr.cellAt r c).color)))))

/-- src/content.rs `Frames::merge`: replace each body frame's color
channel by the color pin and/or its text channel by the text pin, then
clear the pins; any dimension mismatch aborts with the error. -/
def Frames.merge (fs : Frames) : Except Error Frames :=
  match (match fs.color_pin with
         | some color_pin => fs.frames.mapM (fun f => merge_frames f color_pin)
         | none => .ok fs.frames) with
  | .error e => .error e
  | .ok fr1 =>
    match (match fs.text_pin with
           | some text_pin => fr1.mapM (fun f => merge_frames text_pin f)
           | none => .ok fr1) with
    | .error e => .error e
    | .ok fr2 => .ok { fs with frames := fr2, color_pin := none, text_pin := none }

/-- src/content.rs `Frame::read_text`: consume lines up to a blank line;
every normalized line becomes a row of colorless text cells; a changed
width is an error.  Returns the frame and the unconsumed lines. -/
def Frame.read_text (lines : List (List Nat)) :
    Except Error (Frame × List (List Nat)) :=
  go 0 [] lines
where
  go (width : Nat) (rows : List (List Cell)) :
      List (List Nat) → Except Error (Frame × List (List Nat))
  | [] => .ok ({ width := width, color := 0, rows := rows.reverse }, [])
  | line :: rest =>
    let line := normalize_text line
    if line.isEmpty then
      .ok ({ width := width, color := 0, rows := rows.reverse }, rest)
    else if width ≠ 0 ∧ line.length ≠ width then .error .WidthMismatch
    else
      let row := line.map (fun c => ({ text := ⟨c⟩, color := none } : Cell))
      go line.length (row :: rows) rest

/-- src/content.rs `Frame::read_color`: as `read_text`, but each
character is a color reference on a space text cell, counted. -/
def Frame.read_color (lines : List (List Nat)) :
    Except Error (Frame × List (List Nat)) :=
  go 0 0 [] lines
where
  go (width color : Nat) (rows : List (List Cell)) :
      List (List Nat) → Except Error (Frame × List (List Nat))
  | [] => .ok ({ width := width, color := color, rows := rows.reverse }, [])
  | line :: rest =>
    let line := normalize_text line
    if line.isEmpty then
      .ok ({ width := width, color := color, rows := rows.reverse }, rest)
    else if width ≠ 0 ∧ line.length ≠ width then .error .WidthMismatch
    else
      let row := line.map (fun c => ({ text := SPACE, color := some ⟨c⟩ } : Cell))
      go line.length (color + line.length) (row :: rows) rest

/-- src/content.rs `Frames::read_text_pin`: a second text-pin block is a
duplicate-block error; an empty frame leaves the pin unset. -/
def Frames.read_text_pin (fs : Frames) (lines : List (List Nat)) :
    Except Error (Frames × List (List Nat)) := do
  if fs.text_pin ≠ none then
    .error (.BlockDup "text-pin")
  else
    let (frame, rest) ← Frame.read_text lines
    if frame.width ≠ 0 ∧ frame.height ≠ 0 then
      pure ({ fs with text_pin := some frame }, rest)
    else
      pure (fs, rest)

/-- src/content.rs `Frames::read_color_pin`. -/
def Frames.read_color_pin (fs : Frames) (lines : List (List Nat)) :
    Except Error (Frames × List (List Nat)) := do
  if fs.color_pin ≠ none then
    .error (.BlockDup "color-pin")
  else
    let (frame, rest) ← Frame.read_color lines
    if frame.width ≠ 0 ∧ frame.height ≠ 0 then
      pure ({ fs with color_pin := some frame }, rest)
    else
      pure (fs, rest)

/-! ## Legacy dialect scanner (src/content.rs, src/header.rs) -/

/-- src/header.rs `LegacyColorMode`. -/
inductive LegacyColorMode where
  | None | FgOnly | BgOnly | FgAndBg
deriving DecidableEq, Repr

/-- src/header.rs `LegacyHeaderInfo`. -/
structure LegacyHeaderInfo where
  colors : LegacyColorMode
  width : Nat
  height : Nat
deriving DecidableEq, Repr

/-- src/content.rs `LegacyScanMode`. -/
inductive LegacyScanMode where
  | Text | Fg | Bg
deriving DecidableEq, Repr

/-- src/content.rs `LegacyScanMode::next`. -/
def LegacyScanMode.next (m : LegacyScanMode) (cm : LegacyColorMode) :
    LegacyScanMode :=
  match m, cm with
  | .Text, .None => .Text
  | .Text, .FgOnly => .Fg
  | .Text, .BgOnly => .Bg
  | .Text, .FgAndBg => .Fg
  | .Fg, .FgAndBg => .Bg
  | .Fg, _ => .Text
  | .Bg, _ => .Text

/-- The mutable locals of `Frames::read_legacy`'s scan loop. -/
structure LegacyState where
  frames : List Frame
  frame : Frame
  row : List Cell
  fg_len : Nat
  bg_len : Nat
  mode : LegacyScanMode
deriving Repr

/-- One character step of the `Frames::read_legacy` scanner: the
three-state `Text/Fg/Bg` machine, including row completion and frame
completion. -/
def legacyChar (info : LegacyHeaderInfo) (st : LegacyState) (c : Nat) :
    LegacyState :=
  let st :=
    match st.mode with
    | .Text =>
      let row := st.row ++ [({ text := ⟨c⟩, color := none } : Cell)]
      if row.length = info.width then
        let mode := st.mode.next info.colors
        if info.colors = .None then
          { st with mode := mode, row := [],
                    frame := { st.frame with rows := st.frame.rows ++ [row] } }
        else { st with mode := mode, row := row }
      else { st with row := row }
    | .Fg =>
      let row := st.row.set st.fg_len
        { (st.row.getD st.fg_len Cell.default) with
            color := some ⟨trans_color c⟩ }
      let fg_len := st.fg_len + 1
      let frame := { st.frame with color := st.frame.color + 1 }
      if fg_len = info.width then
        let mode := st.mode.next info.colors
        if info.colors = .FgOnly then
          { st with mode := mode, fg_len := 0, row := [],
                    frame := { frame with rows := frame.rows ++ [row] } }
        else { st with mode := mode, fg_len := 0, row := row, frame := frame }
      else { st with fg_len := fg_len, row := row, frame := frame }
    | .Bg =>
      let bg_len := st.bg_len + 1
      if bg_len = info.width then
        let mode := st.mode.next info.colors
        if info.colors = .BgOnly ∨ info.colors = .FgAndBg then
          { st with mode := mode, bg_len := 0, row := [],
                    frame := { st.frame with rows := st.frame.rows ++ [st.row] } }
        else { st with mode := mode, bg_len := 0 }
      else { st with bg_len := bg_len }
  if st.frame.rows.length = info.height then
    { st with frames := st.frames ++ [st.frame],
              frame := { color := 0, width := info.width, rows := [] } }
  else st

/-- One input line of `Frames::read_legacy`: split at the first tab
(dropping the comment tail and skipping the line when the content part
is empty), normalize, skip empty lines, then scan character by
character with the per-line comment flag. -/
def legacyLine (info : LegacyHeaderInfo) (st : LegacyState)
    (line : List Nat) : LegacyState :=
  let parts := line.splitOnP (fun c => c = 0x09)
  let content := if line.contains 0x09 then parts.headD [] else line
  if line.contains 0x09 ∧ content = [] then st
  else
    let content := normalize_text content
    if content = [] then st
    else
      (content.foldl
        (fun (p : Bool × LegacyState) c =>
          if p.1 then p
          else if c = 0x09 then (true, p.2)
          else (p.1, legacyChar info p.2 c))
        (false, st)).2

/-- src/content.rs `Frames::read_legacy`: scan all lines; the leftover
partial frame and row are discarded. -/
def Frames.read_legacy (info : LegacyHeaderInfo) (lines : List (List Nat)) :
    Frames :=
  let init : LegacyState :=
    { frames := [],
      frame := { color := 0, width := info.width, rows := [] },
      row := [], fg_len := 0, bg_len := 0, mode := .Text }
  let final := lines.foldl (legacyLine info) init
  { width := info.width, height := info.height,
    text_pin := none, color_pin := none, frames := final.frames }

/-! ## Header and Art (src/header.rs, src/art.rs) -/

/-- src/header.rs `ExtraHeaderKey`. -/
structure ExtraHeaderKey where
  line : List Nat
  comments : Comments
deriving DecidableEq

/-- src/delay.rs `Delay`: a global delay (0 meaning unset, rendered as
50ms) and sparse per-frame overrides. -/
structure Delay where
  global : Nat
  per_frame : List (Nat × Nat)
deriving DecidableEq

/-- src/header.rs `Header`.  Ordered maps are entry lists; tag lines are
kept as raw data since no verified operation inspects them. -/
structure Header where
  title : Option (List Nat)
  title_comments : Comments
  authors : List (List Nat × Comments)
  orig_authors : List (List Nat × Comments)
  src : Option (List Nat)
  src_comments : Comments
  editor : Option (List Nat)
  editor_comments : Comments
  license : Option (List Nat)
  license_comments : Comments
  delay : Option Delay
  delay_comments : Comments
  loop_flag : Option Bool
  loop_comments : Comments
  preview : Option Nat
  preview_comments : Comments
  colors : Option Bool
  colors_comments : Comments
  tags : List (List (List Nat) × Comments)
  palette : Palette
  legacy : Option LegacyHeaderInfo
  extra_keys : List ExtraHeaderKey

/-- `Header::default()`. -/
def Header.default : Header :=
  { title := none, title_comments := [], authors := [], orig_authors := [],
    src := none, src_comments := [], editor := none, editor_comments := [],
    license := none, license_comments := [], delay := none,
    delay_comments := [], loop_flag := none, loop_comments := [],
    preview := none, preview_comments := [], colors := none,
    colors_comments := [], tags := [], palette := ⟨[]⟩, legacy := none,
    extra_keys := [] }

/-- src/header.rs `Header::get_colors`. -/
def Header.get_colors (h : Header) : Bool :=
  match h.colors with
  | some colors => colors
  | none =>
    match h.legacy with
    | some legacy => legacy.colors ≠ .None
    | none => h.palette.palette.length > 0

/-- src/header.rs `Header::contains_color`. -/
def Header.contains_color (h : Header) (name : Char) : Bool :=
  h.palette.contains_color name

/-- src/art.rs `ExtraBlock`: a named free-text block. -/
structure ExtraBlock where
  title : List Nat
  content : List (List Nat)

/-- src/art.rs `Art`: the aggregate root. -/
structure Art where
  header : Header
  frames : Frames
  attached : Option (List Nat)
  extra : List ExtraBlock

/-- src/art.rs `Art::contains_text`: delegates to
`Frames::contains_text`. -/
def Art.contains_text (a : Art) (ch : Char) : Bool :=
  a.frames.contains_text ch

/-- src/art.rs `Art::contains_color`: palette key or frame reference. -/
def Art.contains_color (a : Art) (name : Char) : Bool :=
  a.header.contains_color name || a.frames.contains_color name

/-- src/art.rs `Art::free_color_name`: the curated priority character
sets tried first, transcribed from the source's string literals as code
point lists (several are mojibake in the source; they are carried
verbatim). -/
def curatedSets : List (List Nat) :=
  [
   [103, 104, 105, 106, 107, 108, 109, 110, 111, 112, 113, 114, 115, 116, 117, 118, 119, 120, 
    121, 122, 65, 66, 67, 68, 69, 70, 71, 72, 73, 74, 75, 76, 77, 78, 79, 80, 81, 82, 83, 84, 
    85, 86, 87, 88, 89, 90],
   [95, 45, 43, 44, 46, 126, 63, 33, 64, 35, 36, 37, 94, 38, 42, 96, 60, 62, 40, 41, 91, 93, 
    123, 125, 34, 39, 92, 124, 47, 58, 59],
   [95, 48, 49, 50, 51, 52, 53, 54, 55, 56, 57, 97, 98, 99, 100, 101, 102],
   [941, 917, 936, 9516, 955, 9516, 956, 9516, 958, 941, 915, 965, 9516, 9617, 9516, 9618, 
    9500, 9558, 9516, 9570, 9516, 960, 9516, 9569, 941, 913, 955, 941, 913, 959, 9516, 965, 
    941, 922, 921, 941, 922, 953, 941, 922, 957, 941, 922, 958, 941, 921, 951, 941, 921, 919, 
    941, 921, 915, 941, 921, 931, 941, 921, 928, 941, 921, 964, 941, 921, 947],
   [941, 936, 953, 941, 936, 954, 941, 936, 955, 941, 936, 956, 941, 936, 957, 941, 936, 958, 
    941, 936, 959, 941, 936, 960, 941, 936, 961, 941, 936, 963, 941, 936, 962, 941, 936, 964, 
    941, 936, 965, 941, 936, 966, 941, 936, 967, 941, 936, 968, 941, 936, 9617, 941, 936, 9618, 
    941, 936, 9619, 941, 936, 9474, 941, 936, 9508, 941, 936, 9569, 941, 936, 9570, 941, 936, 
    9558, 941, 936, 9557, 941, 936, 9571, 941, 936, 9553, 941, 936, 9559, 941, 936, 9565, 941, 
    936, 9564, 941, 936, 9563, 941, 936, 9488, 941, 937, 913, 941, 937, 914, 941, 937, 915, 
    941, 937, 916, 941, 937, 917, 941, 937, 918, 941, 937, 919, 941, 937, 920, 941, 937, 921, 
    941, 937, 922, 941, 937, 923, 941, 937, 924, 941, 937, 925, 941, 937, 926, 941, 937, 927, 
    941, 937, 928, 941, 937, 929, 941, 937, 931, 941, 937, 932, 941, 937, 933, 941, 937, 934, 
    941, 937, 935, 941, 937, 936, 941, 937, 937, 941, 937, 945, 941, 937, 946, 941, 937, 947, 
    941, 937, 948, 941, 937, 949, 941, 937, 950, 941, 937, 951, 941, 937, 952, 941, 937, 953, 
    941, 937, 954, 941, 937, 955, 941, 937, 956, 941, 937, 957, 941, 937, 958, 941, 937, 959, 
    941, 937, 960, 941, 937, 961, 941, 937, 963, 941, 937, 962, 941, 937, 964, 941, 937, 965, 
    941, 937, 966, 941, 937, 967, 941, 937, 9617, 941, 937, 9617, 941, 937, 9618, 941, 937, 
    9619, 941, 937, 9474, 941, 937, 9508, 941, 937, 9569, 941, 937, 9570, 941, 937, 9558, 941, 
    937, 9557, 941, 937, 9557, 941, 937, 9571, 941, 937, 9553, 941, 937, 9559, 941, 937, 9565, 
    941, 937, 9564, 941, 937, 9563, 941, 937, 9488],
   [941, 936, 913, 941, 936, 914, 941, 936, 915, 941, 936, 916, 941, 936, 917, 941, 936, 919, 
    941, 936, 920, 941, 936, 918, 941, 936, 921, 941, 936, 922, 941, 936, 923, 941, 936, 924, 
    941, 936, 925, 941, 936, 926, 941, 936, 927, 941, 936, 928, 941, 936, 929, 941, 936, 931, 
    941, 936, 932, 941, 936, 933, 941, 936, 934, 941, 936, 935, 941, 936, 936, 941, 936, 937, 
    941, 936, 945, 941, 936, 946, 941, 936, 947, 941, 936, 948, 941, 936, 949, 941, 936, 950, 
    941, 936, 951, 941, 936, 952],
   [911, 952, 965, 913, 911, 952, 965, 914, 911, 952, 965, 915, 911, 952, 965, 916, 911, 952, 
    965, 917, 911, 952, 965, 918, 911, 952, 965, 919, 911, 952, 965, 920, 911, 952, 965, 921, 
    911, 952, 965, 922, 911, 952, 965, 923, 911, 952, 965, 924, 911, 952, 965, 925, 911, 952, 
    965, 926, 911, 952, 965, 927, 911, 952, 965, 928, 911, 952, 965, 929, 911, 952, 965, 931, 
    911, 952, 965, 932, 911, 952, 965, 933, 911, 952, 965, 934, 911, 952, 965, 935, 911, 952, 
    965, 936, 911, 952, 965, 937, 911, 952, 965, 945, 911, 952, 965, 946, 911, 952, 965, 947, 
    911, 952, 965, 948, 911, 952, 965, 949, 911, 952, 965, 950, 911, 952, 965, 951, 911, 952, 
    965, 952, 911, 952, 965, 953, 911, 952, 965, 954, 911, 952, 965, 955, 911, 952, 965, 956, 
    911, 952, 965, 957, 911, 952, 965, 958, 911, 952, 965, 959, 911, 952, 965, 961, 911, 952, 
    965, 963, 911, 952, 965, 962, 911, 952, 965, 964, 911, 952, 965, 965, 911, 952, 965, 966, 
    911, 952, 965, 967, 911, 952, 965, 968, 911, 952, 965, 9617, 911, 952, 965, 9618, 911, 952, 
    965, 9619, 911, 952, 965, 9474, 911, 952, 965, 9508, 911, 952, 965, 9569, 911, 952, 965, 
    9570, 911, 952, 965, 9558, 911, 952, 965, 9557, 911, 952, 965, 9571, 911, 952, 965, 9553, 
    911, 952, 965, 9559, 911, 952, 965, 9565, 911, 952, 965, 9565, 911, 952, 965, 9564, 911, 
    952, 965, 9563, 911, 952, 965, 9488, 911, 952, 966, 913, 911, 952, 966, 914, 911, 952, 966, 
    915, 911, 952, 966, 916, 911, 952, 966, 917, 911, 952, 966, 918, 911, 952, 966, 919, 911, 
    952, 966, 920, 911, 952, 966, 921, 911, 952, 966, 922, 911, 952, 966, 923, 911, 952, 966, 
    924, 911, 952, 966, 925, 911, 952, 966, 926, 911, 952, 966, 927, 911, 952, 966, 928, 911, 
    952, 966, 929, 911, 952, 966, 931, 911, 952, 966, 932, 911, 952, 966, 933, 911, 952, 966, 
    934, 911, 952, 966, 935, 911, 952, 966, 936, 911, 952, 966, 937, 911, 952, 966, 945, 911, 
    952, 966, 946, 911, 952, 966, 947, 911, 952, 966, 948, 911, 952, 966, 949, 911, 952, 966, 
    950, 911, 952, 966, 951, 911, 952, 966, 952, 911, 952, 966, 953, 911, 952, 966, 954, 911, 
    952, 966, 955, 911, 952, 966, 956, 911, 952, 966, 957, 911, 952, 966, 958, 911, 952, 966, 
    959, 911, 952, 966, 960, 911, 952, 966, 961, 911, 952, 966, 963, 911, 952, 966, 962, 911, 
    952, 966, 964, 911, 952, 966, 965, 911, 952, 966, 966, 911, 952, 966, 967, 911, 952, 966, 
    968, 911, 952, 966, 9617, 911, 952, 966, 9618, 911, 952, 966, 9619, 911, 952, 966, 9474, 
    911, 952, 966, 9508, 911, 952, 966, 9569, 911, 952, 966, 9570, 911, 952, 966, 9558, 911, 
    952, 966, 9557, 911, 952, 966, 9571, 911, 952, 966, 9553, 911, 952, 966, 9559, 911, 952, 
    966, 9565, 911, 952, 966, 9564, 911, 952, 966, 9563, 911, 952, 966, 9488, 911, 952, 967, 
    913, 911, 952, 967, 914, 911, 952, 967, 915, 911, 952, 967, 916, 911, 952, 967, 917, 911, 
    952, 967, 918, 911, 952, 967, 920, 911, 952, 967, 921, 911, 952, 967, 922, 911, 952, 967, 
    923, 911, 952, 967, 924, 911, 952, 967, 925, 911, 952, 967, 925, 911, 952, 967, 926, 911, 
    952, 967, 927, 911, 952, 967, 928, 911, 952, 967, 929, 911, 952, 967, 931, 911, 952, 967, 
    932, 911, 952, 967, 934, 911, 952, 967, 935, 911, 952, 967, 935, 911, 952, 967, 936, 911, 
    952, 967, 937, 911, 952, 967, 945, 911, 952, 967, 946, 911, 952, 967, 947, 911, 952, 967, 
    948, 911, 952, 967, 949, 911, 952, 967, 950, 911, 952, 967, 951, 911, 952, 967, 952, 911, 
    952, 967, 919, 911, 952, 967, 953, 911, 952, 967, 954, 911, 952, 967, 955, 911, 952, 967, 
    956, 911, 952, 967, 957, 911, 952, 967, 958, 911, 952, 967, 959, 911, 952, 967, 960, 911, 
    952, 967, 963, 911, 952, 967, 961, 911, 952, 967, 962, 911, 952, 967, 964, 911, 952, 967, 
    965, 911, 952, 967, 966, 911, 952, 967, 967, 911, 952, 967, 968, 911, 952, 967, 9617, 911, 
    952, 967, 9618, 911, 952, 967, 9508, 911, 952, 967, 9569, 911, 952, 967, 9570, 911, 952, 
    967, 9558, 911, 952, 967, 9557, 911, 952, 967, 9565, 911, 952, 967, 9559, 911, 952, 967, 
    9563, 911, 952, 967, 9564, 911, 952, 967, 9488, 911, 952, 968, 925, 911, 952, 968, 927, 
    911, 952, 968, 928, 911, 952, 968, 929, 911, 952, 968, 931, 911, 952, 968, 932, 911, 952, 
    968, 933, 911, 952, 968, 934, 911, 952, 968, 935, 911, 952, 968, 936, 911, 952, 968, 937, 
    911, 952, 968, 945, 911, 952, 968, 946, 911, 952, 968, 947, 911, 952, 968, 948, 911, 952, 
    968, 949, 911, 952, 968, 950, 911, 952, 968, 951, 911, 952, 968, 952, 911, 952, 968, 953, 
    911, 952, 968, 954, 911, 952, 968, 955, 911, 952, 968, 956, 911, 952, 968, 957, 911, 952, 
    968, 958, 911, 952, 968, 959, 911, 952, 968, 960, 911, 952, 968, 961, 911, 952, 968, 963, 
    911, 952, 968, 962, 911, 952, 968, 964, 911, 952, 968, 965, 911, 952, 968, 966, 911, 952, 
    968, 967, 911, 952, 968, 968, 911, 952, 968, 9617, 911, 952, 968, 9618, 911, 952, 968, 
    9619, 911, 952, 968, 9474, 911, 952, 968, 9508, 911, 952, 968, 9569, 911, 952, 968, 9570, 
    911, 952, 968, 9558, 911, 952, 968, 9557, 911, 952, 968, 9571],
   [941, 953, 913, 941, 953, 914, 941, 953, 915, 941, 953, 916, 941, 953, 917, 941, 953, 918, 
    941, 953, 919, 941, 953, 920, 941, 953, 921, 941, 953, 922, 941, 953, 923, 941, 953, 924, 
    941, 953, 925, 941, 953, 926, 941, 953, 927, 941, 953, 928, 941, 953, 929, 941, 953, 931, 
    941, 953, 932, 941, 953, 933, 941, 953, 934, 941, 953, 935, 941, 953, 936, 941, 953, 937, 
    941, 953, 945, 941, 953, 946, 941, 953, 947, 941, 953, 948, 941, 953, 949, 941, 953, 950, 
    941, 953, 951, 941, 953, 952, 941, 953, 953, 941, 953, 954, 941, 953, 955, 941, 953, 956, 
    941, 953, 957, 941, 953, 958, 941, 953, 959, 941, 953, 960, 941, 953, 961, 941, 953, 963, 
    941, 953, 962, 941, 953, 964, 941, 953, 965, 941, 953, 966, 941, 953, 967, 941, 953, 968, 
    941, 953, 9617, 941, 953, 9618, 941, 953, 9619, 941, 953, 9474, 941, 953, 9508, 941, 953, 
    9569, 941, 953, 9570, 941, 953, 9558, 941, 953, 9557, 941, 953, 9571, 941, 953, 9553, 941, 
    953, 9559, 941, 953, 9565, 941, 953, 9564, 941, 953, 9563, 941, 953, 9488, 941, 954, 913, 
    941, 954, 914, 941, 954, 915, 941, 954, 916, 941, 954, 917, 941, 954, 918, 941, 954, 919, 
    941, 954, 920, 941, 954, 921, 941, 954, 922, 941, 954, 923, 941, 954, 924, 941, 954, 925, 
    941, 954, 926, 941, 954, 927, 941, 954, 928, 941, 954, 929, 941, 954, 931, 941, 954, 932, 
    941, 954, 933, 941, 954, 934, 941, 954, 935, 941, 954, 936, 941, 954, 937, 941, 954, 945, 
    941, 954, 946, 941, 954, 947, 941, 954, 948, 941, 954, 949, 941, 954, 950, 941, 954, 951, 
    941, 954, 952, 941, 954, 953, 941, 954, 954, 941, 954, 955, 941, 954, 956, 941, 954, 957, 
    941, 954, 958, 941, 954, 959, 941, 954, 960, 941, 954, 961, 941, 954, 963, 941, 954, 962, 
    941, 954, 964, 941, 954, 965, 941, 954, 966, 941, 954, 967, 941, 954, 968, 941, 954, 9617, 
    941, 954, 9618, 941, 954, 9619, 941, 954, 9474, 941, 954, 9508, 941, 954, 9569, 941, 954, 
    9570, 941, 954, 9558, 941, 954, 9557, 941, 954, 9571, 941, 954, 9553, 941, 954, 9559, 941, 
    954, 9565, 941, 954, 9564, 941, 954, 9563, 941, 954, 9488, 941, 955, 913, 941, 955, 914, 
    941, 955, 915, 941, 955, 916, 941, 955, 917, 941, 955, 918, 941, 955, 919, 941, 955, 920, 
    941, 955, 921, 941, 955, 922, 941, 955, 923, 941, 955, 924, 941, 955, 925, 941, 955, 926, 
    941, 955, 927, 941, 955, 928, 941, 955, 929, 941, 955, 931, 941, 955, 932, 941, 955, 933, 
    941, 955, 934, 941, 955, 935, 941, 955, 936, 941, 955, 937, 941, 955, 945, 941, 955, 946, 
    941, 955, 947, 941, 955, 948, 941, 955, 949, 941, 955, 950, 941, 955, 951, 941, 955, 952, 
    941, 955, 953, 941, 955, 954, 941, 955, 955, 941, 955, 956, 941, 955, 957, 941, 955, 958, 
    941, 955, 959, 941, 955, 960, 941, 955, 961, 941, 955, 963, 941, 955, 962, 941, 955, 964, 
    941, 955, 965, 941, 955, 966, 941, 955, 967, 941, 955, 968, 941, 955, 9617, 941, 955, 9618, 
    941, 955, 9619, 941, 955, 9474, 941, 955, 9508, 941, 955, 9569, 941, 955, 9570, 941, 955, 
    9558, 941, 955, 9557, 941, 955, 9571, 941, 955, 9553, 941, 955, 9559, 941, 955, 9565, 941, 
    955, 9564, 941, 955, 9563, 941, 955, 9488, 941, 956, 913, 941, 956, 914, 941, 956, 915, 
    941, 956, 916, 941, 956, 917, 941, 956, 918, 941, 956, 919, 941, 956, 920, 941, 956, 921, 
    941, 956, 922, 941, 956, 923, 941, 956, 924, 941, 956, 925, 941, 956, 926, 941, 956, 927, 
    941, 956, 928, 941, 956, 929, 941, 956, 931, 941, 956, 932, 941, 956, 933, 941, 956, 934, 
    941, 956, 935, 941, 956, 936, 941, 956, 937, 941, 956, 945, 941, 956, 946, 941, 956, 947, 
    941, 956, 948, 941, 956, 949, 941, 956, 950, 941, 956, 951, 941, 956, 952, 941, 956, 953, 
    941, 956, 954, 941, 956, 955, 941, 956, 956, 941, 956, 957, 941, 956, 958, 941, 956, 959, 
    941, 956, 960, 941, 956, 961, 941, 956, 963, 941, 956, 962, 941, 956, 964, 941, 956, 965, 
    941, 956, 966, 941, 956, 967, 941, 956, 968, 941, 956, 9617, 941, 956, 9618, 941, 956, 
    9619, 941, 956, 9474, 941, 956, 9508, 941, 956, 9569, 941, 956, 9570, 941, 956, 9558, 941, 
    956, 9557, 941, 956, 9571, 941, 956, 9553, 941, 956, 9559, 941, 956, 9565, 941, 956, 9564, 
    941, 956, 9563, 941, 956, 9488],
   [941, 931, 953, 941, 931, 954, 941, 931, 955, 941, 931, 956, 941, 931, 957, 941, 931, 958, 
    941, 931, 959, 941, 931, 960, 941, 931, 961, 941, 931, 963, 941, 931, 962, 941, 931, 964, 
    941, 931, 965, 941, 931, 966, 941, 931, 967, 941, 931, 968, 941, 931, 9617, 941, 931, 9618, 
    941, 931, 9619, 941, 931, 9474, 941, 931, 9508, 941, 931, 9569, 941, 931, 9570, 941, 931, 
    9558, 941, 931, 9557, 941, 931, 9571, 941, 931, 9553, 941, 931, 9559, 941, 931, 9565, 941, 
    931, 9564, 941, 931, 9563, 941, 931, 9488, 941, 932, 913, 941, 932, 914, 941, 932, 915, 
    941, 932, 916, 941, 932, 917, 941, 932, 918, 941, 932, 919, 941, 932, 920, 941, 932, 921, 
    941, 932, 922, 941, 932, 923, 941, 932, 924, 941, 932, 925, 941, 932, 926, 941, 932, 927, 
    941, 932, 928, 941, 932, 929, 941, 932, 931, 941, 932, 932, 941, 932, 933, 941, 932, 934, 
    941, 932, 935, 941, 932, 936, 941, 932, 937, 941, 932, 945, 941, 932, 946, 941, 932, 947, 
    941, 932, 948, 941, 932, 949, 941, 932, 950, 941, 932, 951, 941, 932, 952, 941, 932, 953, 
    941, 932, 954, 941, 932, 955, 941, 932, 956, 941, 932, 957, 941, 932, 958, 941, 932, 959, 
    941, 932, 960, 941, 932, 961, 941, 932, 963, 941, 932, 962, 941, 932, 964, 941, 932, 965, 
    941, 932, 966, 941, 932, 967, 941, 932, 968, 941, 932, 9617, 941, 932, 9618, 941, 932, 
    9619, 941, 932, 9474, 941, 932, 9508, 941, 932, 9569, 941, 932, 9570, 941, 932, 9558, 941, 
    932, 9557, 941, 932, 9571, 941, 932, 9553, 941, 932, 9559, 941, 932, 9565, 941, 932, 9564, 
    941, 932, 9563, 941, 932, 9488, 941, 933, 913, 941, 933, 914, 941, 933, 915, 941, 933, 916, 
    941, 933, 917, 941, 933, 918, 941, 933, 919, 941, 933, 920, 941, 933, 921, 941, 933, 922, 
    941, 933, 923, 941, 933, 924, 941, 933, 925, 941, 933, 926, 941, 933, 927, 941, 933, 928, 
    941, 933, 929, 941, 933, 931, 941, 933, 932, 941, 933, 933, 941, 933, 934, 941, 933, 935, 
    941, 933, 936, 941, 933, 937, 941, 933, 945, 941, 933, 946, 941, 933, 947, 941, 933, 948, 
    941, 933, 949, 941, 933, 950, 941, 933, 951, 941, 933, 952, 941, 933, 953, 941, 933, 954, 
    941, 933, 955, 941, 933, 956, 941, 933, 957, 941, 933, 958, 941, 933, 959, 941, 933, 960, 
    941, 933, 961, 941, 933, 963, 941, 933, 962, 941, 933, 964, 941, 933, 965, 941, 933, 966, 
    941, 933, 967, 941, 933, 968, 941, 933, 9617, 941, 933, 9618, 941, 933, 9619, 941, 933, 
    9474, 941, 933, 9508, 941, 933, 9569, 941, 933, 9570, 941, 933, 9558, 941, 933, 9557, 941, 
    933, 9571, 941, 933, 9553, 941, 933, 9559, 941, 933, 9565, 941, 933, 9564, 941, 933, 9563, 
    941, 933, 9488],
   [941, 921, 913, 941, 921, 914, 941, 921, 915, 941, 921, 916, 941, 921, 917, 941, 921, 918, 
    941, 921, 919, 941, 921, 920, 941, 921, 921, 941, 921, 922, 941, 921, 923, 941, 921, 924, 
    941, 921, 925, 941, 921, 926, 941, 921, 927, 941, 921, 928, 941, 921, 929, 941, 921, 931, 
    941, 921, 932, 941, 921, 933, 941, 921, 934, 941, 921, 935, 941, 921, 937, 941, 921, 945, 
    941, 921, 946, 941, 921, 947, 941, 921, 948, 941, 921, 949, 941, 921, 950, 941, 921, 951, 
    941, 921, 952, 941, 921, 953, 941, 921, 954, 941, 921, 955, 941, 921, 956, 941, 921, 957, 
    941, 921, 958, 941, 921, 959, 941, 921, 960, 941, 921, 961, 941, 921, 963, 941, 921, 962, 
    941, 921, 964, 941, 921, 965, 941, 921, 966, 941, 921, 967, 941, 921, 968, 941, 921, 9617, 
    941, 921, 9618, 941, 921, 9619, 941, 921, 9474, 941, 921, 9508, 941, 921, 9569, 941, 921, 
    9570, 941, 921, 9558, 941, 921, 9557, 941, 921, 9571, 941, 921, 9553, 941, 921, 9559, 941, 
    921, 9565, 941, 921, 9564, 941, 921, 9563, 941, 921, 9488, 941, 922, 913, 941, 922, 914, 
    941, 922, 915, 941, 922, 916, 941, 922, 917, 941, 922, 918, 941, 922, 919, 941, 922, 920, 
    941, 922, 921, 941, 922, 922, 941, 922, 923, 941, 922, 924, 941, 922, 925, 941, 922, 926, 
    941, 922, 927, 941, 922, 928, 941, 922, 929, 941, 922, 931, 941, 922, 932, 941, 922, 933, 
    941, 922, 934, 941, 922, 935, 941, 922, 936, 941, 922, 937, 941, 922, 945, 941, 922, 946, 
    941, 922, 947, 941, 922, 948, 941, 922, 949, 941, 922, 950, 941, 922, 951, 941, 922, 952, 
    941, 922, 953, 941, 922, 954, 941, 922, 955, 941, 922, 956, 941, 922, 957, 941, 922, 958, 
    941, 922, 959, 941, 922, 960, 941, 922, 961, 941, 922, 963, 941, 922, 962, 941, 922, 964, 
    941, 922, 965, 941, 922, 966, 941, 922, 967, 941, 922, 968, 941, 922, 9617, 941, 922, 9618, 
    941, 922, 9619, 941, 922, 9474, 941, 922, 9508, 941, 922, 9569, 941, 922, 9570, 941, 922, 
    9558, 941, 922, 9557, 941, 922, 9571, 941, 922, 9553, 941, 922, 9559, 941, 922, 9565, 941, 
    922, 9564, 941, 922, 9563, 941, 922, 9488, 941, 923, 913, 941, 923, 914, 941, 923, 915, 
    941, 923, 916, 941, 923, 917, 941, 923, 918, 941, 923, 919, 941, 923, 920, 941, 923, 921, 
    941, 923, 922, 941, 923, 923, 941, 923, 924, 941, 923, 925, 941, 923, 926, 941, 923, 927, 
    941, 923, 928, 941, 923, 929, 941, 923, 931, 941, 923, 932, 941, 923, 933, 941, 923, 934, 
    941, 923, 935, 941, 923, 936, 941, 923, 937, 941, 923, 945, 941, 923, 946, 941, 923, 947, 
    941, 923, 948, 941, 923, 949, 941, 923, 950, 941, 923, 951, 941, 923, 952, 941, 923, 953, 
    941, 923, 954, 941, 923, 955, 941, 923, 956, 941, 923, 957, 941, 923, 958, 941, 923, 959, 
    941, 923, 960, 941, 923, 961, 941, 923, 963, 941, 923, 962, 941, 923, 964, 941, 923, 965, 
    941, 923, 966, 941, 923, 967, 941, 923, 968, 941, 923, 9617, 941, 923, 9618, 941, 923, 
    9619, 941, 923, 9474, 941, 923, 9508, 941, 923, 9569, 941, 923, 9570, 941, 923, 9558, 941, 
    923, 9557, 941, 923, 9571, 941, 923, 9553, 941, 923, 9559, 941, 923, 9565, 941, 923, 9564, 
    941, 923, 9563, 941, 923, 9488, 941, 924, 913, 941, 924, 914, 941, 924, 915, 941, 924, 916, 
    941, 924, 917, 941, 924, 918, 941, 924, 919, 941, 924, 920, 941, 924, 921, 941, 924, 922, 
    941, 924, 923, 941, 924, 924, 941, 924, 925, 941, 924, 926, 941, 924, 927, 941, 924, 928, 
    941, 924, 929, 941, 924, 931, 941, 924, 932, 941, 924, 933, 941, 924, 934, 941, 924, 935, 
    941, 924, 936, 941, 924, 937, 941, 924, 945, 941, 924, 946, 941, 924, 947, 941, 924, 948, 
    941, 924, 949, 941, 924, 950, 941, 924, 951, 941, 924, 952, 941, 924, 953, 941, 924, 954, 
    941, 924, 955, 941, 924, 956, 941, 924, 957, 941, 924, 958, 941, 924, 959, 941, 924, 960, 
    941, 924, 961, 941, 924, 963, 941, 924, 962, 941, 924, 964, 941, 924, 965, 941, 924, 966, 
    941, 924, 967, 941, 924, 968, 941, 924, 9617, 941, 924, 9618, 941, 924, 9619, 941, 924, 
    9474, 941, 924, 9508, 941, 924, 9569, 941, 924, 9570, 941, 924, 9558, 941, 924, 9557, 941, 
    924, 9571, 941, 924, 9553, 941, 924, 9559, 941, 924, 9565, 941, 924, 9564, 941, 924, 9563, 
    941, 924, 9488],
   [941, 919, 929, 941, 919, 931, 941, 919, 932, 941, 919, 933, 941, 919, 934, 941, 919, 935, 
    941, 919, 936, 941, 919, 937, 941, 919, 945, 941, 919, 946, 941, 919, 947, 941, 919, 948, 
    941, 919, 949, 941, 919, 950, 941, 919, 951, 941, 919, 952, 941, 919, 953, 941, 919, 954, 
    941, 919, 955, 941, 919, 956, 941, 919, 957, 941, 919, 958, 941, 919, 959, 941, 919, 960, 
    941, 919, 961, 941, 919, 963, 941, 919, 962, 941, 919, 964, 941, 919, 965, 941, 919, 966, 
    941, 919, 967, 941, 919, 968, 941, 919, 9617, 941, 919, 9618, 941, 919, 9619, 941, 919, 
    9474, 941, 919, 9508, 941, 919, 9569, 941, 919, 9570, 941, 919, 9558, 941, 919, 9557, 941, 
    919, 9571, 941, 919, 9553, 941, 919, 9559, 941, 919, 9565, 941, 919, 9564, 941, 919, 9563, 
    941, 919, 9488, 941, 920, 913, 941, 920, 914, 941, 920, 915, 941, 920, 916, 941, 920, 917, 
    941, 920, 918, 941, 920, 919, 941, 920, 920, 941, 920, 921, 941, 920, 922, 941, 920, 923, 
    941, 920, 924, 941, 920, 925, 941, 920, 926, 941, 920, 927, 941, 920, 928, 941, 920, 929, 
    941, 920, 931, 941, 920, 932, 941, 920, 933, 941, 920, 934, 941, 920, 935, 941, 920, 936, 
    941, 920, 937, 941, 920, 945, 941, 920, 946, 941, 920, 947, 941, 920, 948, 941, 920, 949, 
    941, 920, 950, 941, 920, 951, 941, 920, 952, 941, 920, 953, 941, 920, 954, 941, 920, 955, 
    941, 920, 956, 941, 920, 957, 941, 920, 958, 941, 920, 959, 941, 920, 960, 941, 920, 961, 
    941, 920, 963, 941, 920, 962, 941, 920, 964, 941, 920, 965, 941, 920, 966, 941, 920, 967, 
    941, 920, 968, 941, 920, 9617, 941, 920, 9618, 941, 920, 9619, 941, 920, 9474, 941, 920, 
    9508, 941, 920, 9569, 941, 920, 9570, 941, 920, 9558, 941, 920, 9557, 941, 920, 9571, 941, 
    920, 9553, 941, 920, 9559, 941, 920, 9565, 941, 920, 9564, 941, 920, 9563, 941, 920, 9488],
   [941, 952, 9617, 941, 952, 9618, 941, 952, 9619, 941, 952, 9474, 941, 952, 9508, 941, 952, 
    9569, 941, 952, 9570, 941, 952, 9558, 941, 952, 9557, 941, 952, 9571, 941, 952, 9553, 941, 
    952, 9559, 941, 952, 9565, 941, 952, 9564, 941, 952, 9563, 941, 952, 9488],
   [941, 957, 913, 941, 957, 914, 941, 957, 915, 941, 957, 916, 941, 957, 917, 941, 957, 918, 
    941, 957, 919, 941, 957, 920, 941, 957, 921, 941, 957, 922, 941, 957, 923, 941, 957, 924, 
    941, 957, 925, 941, 957, 926, 941, 957, 927, 941, 957, 928, 941, 957, 929, 941, 957, 931, 
    941, 957, 932, 941, 957, 933, 941, 957, 934, 941, 957, 935, 941, 957, 936, 941, 957, 937, 
    941, 957, 945, 941, 957, 946, 941, 957, 947, 941, 957, 948, 941, 957, 949, 941, 957, 950, 
    941, 957, 951, 941, 957, 952, 941, 957, 953, 941, 957, 954, 941, 957, 955, 941, 957, 956, 
    941, 957, 957, 941, 957, 958, 941, 957, 959, 941, 958, 913, 941, 958, 914, 941, 958, 920, 
    941, 958, 921, 941, 958, 923, 941, 958, 924, 941, 958, 925, 941, 958, 926, 941, 958, 927, 
    941, 958, 928, 941, 958, 929, 941, 958, 931, 941, 958, 932, 941, 958, 933, 941, 958, 934, 
    941, 958, 935, 941, 958, 936, 941, 958, 937, 941, 958, 945, 941, 958, 946, 941, 958, 947, 
    941, 958, 948, 941, 958, 949, 941, 958, 950, 941, 958, 951, 941, 958, 952, 941, 958, 953, 
    941, 958, 954, 941, 958, 955, 941, 958, 956, 941, 958, 957, 941, 958, 958, 941, 958, 967, 
    941, 958, 968],
   [911, 952, 953, 913, 911, 952, 953, 914, 911, 952, 953, 915, 911, 952, 953, 916, 911, 952, 
    953, 917, 911, 952, 953, 918, 911, 952, 953, 919, 911, 952, 953, 920, 911, 952, 953, 921, 
    911, 952, 953, 922, 911, 952, 953, 923, 911, 952, 953, 924, 911, 952, 953, 925, 911, 952, 
    953, 926, 911, 952, 953, 927, 911, 952, 953, 928, 911, 952, 953, 929, 911, 952, 953, 931, 
    911, 952, 953, 932, 911, 952, 953, 933, 911, 952, 953, 934, 911, 952, 953, 935, 911, 952, 
    953, 936, 911, 952, 953, 937, 911, 952, 953, 945, 911, 952, 953, 946, 911, 952, 953, 947, 
    911, 952, 953, 948, 911, 952, 953, 949, 911, 952, 953, 950, 911, 952, 953, 951, 911, 952, 
    953, 952, 911, 952, 953, 953, 911, 952, 953, 954, 911, 952, 953, 955, 911, 952, 953, 956, 
    911, 952, 953, 957, 911, 952, 953, 958, 911, 952, 953, 959, 911, 952, 953, 960, 911, 952, 
    953, 961, 911, 952, 953, 963, 911, 952, 953, 962, 911, 952, 953, 964, 911, 952, 953, 965, 
    911, 952, 953, 966, 911, 952, 953, 967, 911, 952, 953, 968, 911, 952, 953, 9617, 911, 952, 
    953, 9618, 911, 952, 953, 9619, 911, 952, 953, 9474, 911, 952, 953, 9508, 911, 952, 953, 
    9569, 911, 952, 953, 9570, 911, 952, 953, 9558, 911, 952, 953, 9557, 911, 952, 953, 9571, 
    911, 952, 953, 9553, 911, 952, 953, 9559, 911, 952, 953, 9565, 911, 952, 953, 9564, 911, 
    952, 953, 9563, 911, 952, 953, 9488, 911, 952, 954, 913, 911, 952, 954, 914, 911, 952, 954, 
    915, 911, 952, 954, 916, 911, 952, 954, 917, 911, 952, 954, 918, 911, 952, 954, 919, 911, 
    952, 954, 920, 911, 952, 954, 929, 911, 952, 954, 931, 911, 952, 954, 932, 911, 952, 954, 
    933, 911, 952, 954, 934, 911, 952, 954, 935, 911, 952, 954, 936, 911, 952, 954, 937, 911, 
    952, 954, 945, 911, 952, 954, 946, 911, 952, 954, 953, 911, 952, 954, 954, 911, 952, 954, 
    955, 911, 952, 954, 956, 911, 952, 954, 957, 911, 952, 954, 958, 911, 952, 954, 959, 911, 
    952, 954, 960, 911, 952, 954, 961, 911, 952, 954, 963, 911, 952, 954, 962, 911, 952, 954, 
    964, 911, 952, 954, 965, 911, 952, 954, 966, 911, 952, 954, 967, 911, 952, 954, 968, 911, 
    952, 954, 9617, 911, 952, 954, 9618, 911, 952, 954, 9619, 911, 952, 954, 9474, 911, 952, 
    954, 9508, 911, 952, 954, 9569, 911, 952, 954, 9570, 911, 952, 954, 9558, 911, 952, 954, 
    9557, 911, 952, 954, 9571, 911, 952, 954, 9553, 911, 952, 954, 9559, 911, 952, 954, 9565, 
    911, 952, 954, 9564, 911, 952, 954, 9563, 911, 952, 954, 9488, 911, 952, 955, 913, 911, 
    952, 955, 914, 911, 952, 955, 915, 911, 952, 955, 916, 911, 952, 955, 917, 911, 952, 955, 
    918, 911, 952, 955, 919, 911, 952, 955, 920, 911, 952, 955, 9617, 911, 952, 955, 9618, 911, 
    952, 955, 9619, 911, 952, 955, 9474, 911, 952, 955, 9508, 911, 952, 955, 9569, 911, 952, 
    955, 9570, 911, 952, 955, 9558, 911, 952, 955, 9557, 911, 952, 955, 9571, 911, 952, 955, 
    9553, 911, 952, 955, 9559, 911, 952, 956, 913, 911, 952, 956, 914],
   [941, 952, 913, 941, 952, 914, 941, 952, 915, 941, 952, 916, 941, 952, 917, 941, 952, 918, 
    941, 952, 919, 941, 952, 920, 941, 952, 921, 941, 952, 922, 941, 952, 923, 941, 952, 924, 
    941, 952, 925, 941, 952, 926, 941, 952, 927, 941, 952, 928, 941, 952, 929, 941, 952, 931, 
    941, 952, 932, 941, 952, 933, 941, 952, 934, 941, 952, 935, 941, 952, 936, 941, 952, 937, 
    941, 952, 945, 941, 952, 946, 941, 952, 947, 941, 952, 948, 941, 952, 949, 941, 952, 950, 
    941, 952, 951, 941, 952, 952, 941, 952, 953, 941, 952, 954, 941, 952, 955, 941, 952, 956, 
    941, 952, 957, 941, 952, 958, 941, 952, 959, 941, 952, 960, 941, 952, 961, 941, 952, 963, 
    941, 952, 962, 941, 952, 964, 941, 952, 967, 941, 952, 968],
   [941, 959, 913, 941, 959, 914, 941, 959, 915, 941, 959, 916, 941, 959, 917, 941, 959, 918, 
    941, 959, 919, 941, 959, 920, 941, 959, 921, 941, 959, 922, 941, 959, 923, 941, 959, 924, 
    941, 959, 925, 941, 959, 931, 941, 959, 932, 941, 959, 946, 941, 959, 947, 941, 959, 948, 
    941, 959, 950, 941, 959, 951, 941, 959, 953, 941, 959, 954, 941, 959, 955, 941, 959, 956, 
    941, 959, 957, 941, 959, 958, 941, 959, 9617, 941, 959, 9618, 941, 959, 9619, 941, 959, 
    9474, 941, 959, 9508, 941, 959, 9569, 941, 959, 9570, 941, 959, 9558, 941, 959, 9557, 941, 
    959, 9571, 941, 959, 9553, 941, 959, 9559, 941, 959, 9565, 941, 959, 9564, 941, 959, 9563, 
    941, 959, 9488, 941, 960, 917, 941, 960, 918, 941, 960, 919, 941, 960, 920, 941, 960, 921, 
    941, 960, 922, 941, 960, 923, 941, 960, 924, 941, 960, 925, 941, 960, 926, 941, 960, 927, 
    941, 960, 928, 941, 960, 929, 941, 960, 931, 941, 960, 932, 941, 960, 933, 941, 960, 934, 
    941, 960, 935, 941, 960, 936, 941, 960, 937, 941, 960, 945, 941, 960, 946, 941, 960, 947, 
    941, 960, 948, 941, 960, 952, 941, 960, 955, 941, 960, 956, 941, 960, 957, 941, 960, 958, 
    941, 960, 959, 941, 960, 960, 941, 960, 961, 941, 960, 963, 941, 960, 962, 941, 960, 964, 
    941, 960, 9508, 941, 960, 9569, 941, 960, 9570, 941, 960, 9558, 941, 960, 9557, 941, 960, 
    9571, 941, 960, 9553, 941, 960, 9559],
   [941, 961, 913, 941, 961, 918, 941, 961, 919, 941, 961, 922, 941, 961, 931, 941, 961, 932, 
    941, 961, 933, 941, 961, 934, 941, 961, 935, 941, 961, 936, 941, 961, 950, 941, 961, 951, 
    941, 961, 952, 941, 961, 955, 941, 961, 956, 941, 961, 957, 941, 961, 958, 941, 961, 959, 
    941, 961, 960, 941, 961, 962, 941, 961, 964, 941, 961, 965, 941, 961, 966, 941, 961, 967, 
    941, 961, 968, 941, 961, 9617, 941, 961, 9618, 941, 961, 9619, 941, 961, 9508, 941, 961, 
    9569, 941, 961, 9570, 941, 961, 9557, 941, 961, 9571, 941, 961, 9553, 941, 961, 9559, 941, 
    961, 9565, 941, 961, 9564, 941, 961, 9563, 941, 961, 9488, 941, 963, 913, 941, 963, 914, 
    941, 963, 915, 941, 963, 916, 941, 963, 925, 941, 963, 926, 941, 963, 927, 941, 963, 928, 
    941, 963, 933, 941, 963, 934, 941, 963, 937, 941, 963, 945, 941, 963, 947, 941, 963, 948, 
    941, 963, 951, 941, 963, 952, 941, 963, 953, 941, 963, 954, 941, 963, 955, 941, 963, 956, 
    941, 963, 957, 941, 963, 958, 941, 963, 959, 941, 963, 960, 941, 963, 961, 941, 963, 963, 
    941, 963, 962, 941, 963, 964, 941, 963, 965, 941, 963, 966, 941, 963, 967, 941, 963, 968, 
    941, 963, 9617, 941, 963, 9618, 941, 963, 9619, 941, 963, 9474, 941, 963, 9564, 941, 963, 
    9563, 941, 963, 9488, 941, 962, 913, 941, 962, 918, 941, 962, 919, 941, 962, 920, 941, 962, 
    921, 941, 962, 922, 941, 962, 923, 941, 962, 926, 941, 962, 927, 941, 962, 935, 941, 962, 
    936, 941, 962, 937, 941, 962, 945, 941, 962, 946, 941, 962, 947, 941, 962, 950, 941, 962, 
    951, 941, 962, 962, 941, 962, 964, 941, 962, 965, 941, 962, 966, 941, 962, 967, 941, 962, 
    968, 941, 962, 9617, 941, 962, 9618, 941, 962, 9619, 941, 962, 9474, 941, 962, 9508, 941, 
    962, 9569, 941, 962, 9570, 941, 962, 9558, 941, 962, 9557, 941, 962, 9571, 941, 962, 9553, 
    941, 962, 9564, 941, 962, 9563, 941, 964, 928, 941, 964, 929, 941, 964, 931, 941, 964, 932, 
    941, 964, 946, 941, 964, 947, 941, 964, 948, 941, 964, 949, 941, 964, 950, 941, 964, 951, 
    941, 964, 952, 941, 964, 953, 941, 964, 955, 941, 964, 956, 941, 964, 957, 941, 964, 958, 
    941, 964, 959, 941, 964, 960, 941, 964, 961, 941, 964, 963, 941, 964, 962, 941, 964, 964, 
    941, 964, 965, 941, 964, 966, 941, 964, 967, 941, 964, 968, 941, 964, 9617, 941, 964, 9618, 
    941, 964, 9619, 941, 964, 9474, 941, 964, 9508, 941, 964, 9569, 941, 964, 9570, 941, 964, 
    9565, 941, 964, 9564],
   [911, 952, 951, 913, 911, 952, 951, 914, 911, 952, 951, 915, 911, 952, 951, 916, 911, 952, 
    951, 917, 911, 952, 951, 918, 911, 952, 951, 919, 911, 952, 951, 920, 911, 952, 951, 921, 
    911, 952, 951, 922, 911, 952, 951, 923, 911, 952, 951, 924, 911, 952, 951, 925, 911, 952, 
    951, 926, 911, 952, 951, 927, 911, 952, 951, 928, 911, 952, 951, 929, 911, 952, 951, 931, 
    911, 952, 951, 932, 911, 952, 951, 933, 911, 952, 951, 934, 911, 952, 951, 935, 911, 952, 
    951, 936, 911, 952, 951, 937, 911, 952, 951, 945, 911, 952, 951, 946, 911, 952, 951, 947, 
    911, 952, 951, 948, 911, 952, 951, 949, 911, 952, 951, 950, 911, 952, 951, 951, 911, 952, 
    951, 952, 911, 952, 951, 953, 911, 952, 951, 954, 911, 952, 951, 955, 911, 952, 951, 956, 
    911, 952, 951, 957, 911, 952, 951, 958, 911, 952, 951, 959, 911, 952, 951, 960, 911, 952, 
    951, 961, 911, 952, 951, 961, 911, 952, 951, 963, 911, 952, 951, 962, 911, 952, 951, 964, 
    911, 952, 951, 965, 911, 952, 951, 966, 911, 952, 951, 967, 911, 952, 951, 968, 911, 952, 
    951, 968, 911, 952, 951, 9617, 911, 952, 951, 9618, 911, 952, 951, 9619, 911, 952, 951, 
    9474, 911, 952, 951, 9508, 911, 952, 951, 9569, 911, 952, 951, 9569, 911, 952, 951, 9570, 
    911, 952, 951, 9558, 911, 952, 951, 9557, 911, 952, 951, 9571, 911, 952, 951, 9553, 911, 
    952, 951, 9559, 911, 952, 951, 9559, 911, 952, 951, 9565, 911, 952, 951, 9564, 911, 952, 
    951, 9563, 911, 952, 951, 9488, 911, 952, 952, 953, 911, 952, 952, 954, 911, 952, 952, 955, 
    911, 952, 952, 956, 911, 952, 952, 957, 911, 952, 952, 958, 911, 952, 952, 959, 911, 952, 
    952, 960, 911, 952, 952, 961, 911, 952, 952, 963, 911, 952, 952, 962, 911, 952, 952, 964],
   [9516, 954, 9516, 955, 9516, 956, 9516, 957, 9516, 958, 9516, 959, 9516, 960, 9516, 961, 
    9516, 963, 9516, 962, 9516, 964, 9516, 965, 9516, 967, 9516, 968, 9516, 9617, 9516, 9618, 
    9516, 9619, 9516, 9474, 9516, 9508, 9516, 9569, 9516, 9570, 9516, 9558, 9516, 9557, 9516, 
    9571, 9516, 9553, 9516, 9559, 9516, 9565, 9516, 9564, 9516, 9563, 9516, 9488, 9500, 913, 
    9500, 914, 9500, 915, 9500, 916, 9500, 917, 9500, 918, 9500, 919, 9500, 920, 9500, 921, 
    9500, 922, 9500, 923, 9500, 924, 9500, 925, 9500, 926, 9500, 927, 9500, 928, 9500, 929, 
    9500, 931, 9500, 932, 9500, 933, 9500, 934, 9500, 935, 9500, 936, 9500, 937, 9500, 945, 
    9500, 946, 9500, 948, 9500, 947, 9500, 949, 9500, 950, 9500, 951, 9500, 952, 9500, 953, 
    9500, 954, 9500, 955, 9500, 956, 9500, 957, 9500, 958, 9500, 959, 9500, 961, 9500, 963, 
    9500, 962, 9500, 964, 9500, 965, 9500, 966, 9500, 967, 9500, 968, 9500, 9617, 9500, 9618, 
    9500, 9619, 9500, 9474, 9500, 9508, 9500, 9569, 9500, 9570, 9500, 9558, 9500, 9557, 9500, 
    9571, 9500, 9553, 9500, 9559, 9500, 9565, 9500, 9564, 9500, 9563, 9500, 9488],
   [9472, 913, 9472, 914, 9472, 915, 9472, 916, 9472, 917, 9472, 918, 9472, 919, 9472, 920, 
    9472, 921, 9472, 922, 9472, 923, 9472, 924, 9472, 925, 9472, 926, 9472, 927, 9472, 928, 
    9472, 929, 9472, 931, 9472, 932, 9472, 933, 9472, 934, 9472, 935, 9472, 936, 9472, 937, 
    9472, 945, 9472, 946, 9472, 947, 9472, 948, 9472, 949, 9472, 950, 9472, 951, 9472, 952, 
    9472, 953, 9472, 954, 9472, 955, 9472, 956, 9472, 957, 9472, 958, 9472, 959, 9472, 960, 
    9472, 961, 9472, 963, 9472, 962, 9472, 964, 9472, 965, 9472, 966, 9472, 967, 9472, 968, 
    9472, 9617, 9472, 9618, 9472, 9619, 9472, 9474, 9472, 9508, 9472, 9569, 9472, 9570, 9472, 
    9558, 9472, 9557, 9472, 9571, 9472, 9553, 9472, 9559, 9472, 9565, 9472, 9564, 9472, 9563, 
    9472, 9488, 9532, 913, 9532, 914, 9532, 915, 9532, 916, 9532, 917, 9532, 918, 9532, 919, 
    9532, 920, 9532, 921, 9532, 922, 9532, 923, 9532, 924, 9532, 925, 9532, 926, 9532, 927, 
    9532, 928, 9532, 929, 9532, 931, 9532, 932, 9532, 933, 9532, 934, 9532, 935, 9532, 936, 
    9532, 937, 9532, 945, 9532, 946, 9532, 947, 9532, 948, 9532, 949, 9532, 950, 9532, 951, 
    9532, 952, 9532, 953, 9532, 954, 9532, 955, 9532, 956, 9532, 957, 9532, 958, 9532, 959, 
    9532, 960, 9532, 961, 9532, 963, 9532, 962, 9532, 964, 9532, 965, 9532, 966, 9532, 967, 
    9532, 968, 9532, 9617, 9532, 9618, 9532, 9619, 9532, 9474, 9532, 9508, 9532, 9569, 9532, 
    9570, 9532, 9558, 9532, 9557, 9532, 9571, 9532, 9553, 9532, 9559, 9532, 9565, 9532, 9564, 
    9532, 9563, 9532, 9488],
   [941, 936, 953, 941, 936, 954, 941, 937, 928, 941, 937, 924, 941, 936, 9619, 941, 936, 9474, 
    941, 936, 9565, 941, 936, 9564, 941, 936, 9570, 941, 936, 9558, 941, 937, 913, 941, 937, 
    914, 941, 937, 919, 941, 937, 920, 941, 945, 918, 941, 945, 919, 941, 950, 957, 941, 946, 
    954, 941, 946, 953, 941, 946, 957, 941, 946, 956, 941, 946, 960, 941, 946, 959, 941, 946, 
    955],
   [941, 919, 929, 941, 919, 931, 941, 919, 932, 941, 919, 933, 941, 919, 934, 941, 919, 935, 
    941, 919, 936, 941, 919, 937, 941, 919, 945, 941, 919, 946, 941, 920, 929, 941, 920, 931, 
    941, 920, 932, 941, 920, 933, 941, 920, 934, 941, 920, 935, 941, 919, 949, 941, 919, 950],
   [9580, 9618, 9580, 9619, 9580, 9474, 9580, 9508, 9580, 9570, 9580, 9569, 9580, 9558, 9580, 
    945, 9580, 9559, 9580, 9563, 9580, 951, 9575, 913, 9575, 916, 9575, 917, 9575, 919, 9575, 
    922, 9580, 963],
   [9576, 9618, 9576, 9474, 9576, 9508, 9572, 931, 9576, 9557, 9576, 9559, 9576, 9488, 9572, 
    916, 9572, 917, 9572, 919, 9572, 920, 9572, 921, 9572, 923, 9572, 924, 9572, 926, 9572, 
    927, 9572, 928],
   [941, 934, 913, 941, 934, 914, 941, 934, 915, 941, 934, 916, 941, 934, 917, 941, 934, 917, 
    941, 934, 918, 941, 934, 919, 941, 934, 920, 941, 934, 921, 941, 934, 922, 941, 934, 923, 
    941, 934, 924, 941, 934, 925, 941, 934, 926, 941, 934, 927, 941, 934, 928, 941, 934, 929, 
    941, 934, 931, 941, 934, 932, 941, 934, 933, 941, 934, 934, 941, 934, 935, 941, 934, 936, 
    941, 934, 937, 941, 934, 945, 941, 934, 946, 941, 934, 947, 941, 934, 948, 941, 934, 949, 
    941, 934, 950, 941, 934, 951, 941, 934, 952, 941, 934, 953, 941, 934, 954, 941, 934, 955, 
    941, 934, 956, 941, 934, 957, 941, 934, 958, 941, 934, 959, 941, 934, 960, 941, 934, 961, 
    941, 934, 963, 941, 934, 962, 941, 934, 964, 941, 934, 965, 941, 934, 966, 941, 934, 967, 
    941, 934, 968, 941, 934, 9617, 941, 934, 9618, 941, 934, 9619, 941, 934, 9474, 941, 934, 
    9508, 941, 934, 9569, 941, 934, 9570, 941, 934, 9558, 941, 934, 9557, 941, 934, 9571, 941, 
    934, 9553, 941, 934, 9559, 941, 934, 9565, 941, 934, 9564, 941, 934, 9563, 941, 935, 914, 
    941, 935, 915, 941, 935, 916, 941, 935, 917, 941, 935, 918, 941, 935, 919, 941, 935, 920, 
    941, 935, 921, 941, 935, 922, 941, 935, 923, 941, 935, 924, 941, 935, 925, 941, 935, 926, 
    941, 935, 927, 941, 935, 928, 941, 935, 929, 941, 935, 931, 941, 935, 932, 941, 935, 933, 
    941, 935, 934, 941, 935, 935, 941, 935, 936, 941, 935, 937, 941, 935, 945, 941, 935, 946, 
    941, 935, 947, 941, 935, 948, 941, 935, 949, 941, 935, 950, 941, 935, 951, 941, 935, 954, 
    941, 935, 955, 941, 935, 956, 941, 935, 957, 941, 935, 958, 941, 935, 959, 941, 935, 960, 
    941, 935, 961, 941, 935, 963, 941, 935, 962, 941, 935, 964, 941, 935, 965, 941, 935, 966, 
    941, 935, 966, 941, 935, 967, 941, 935, 968, 941, 935, 9617, 941, 935, 9618, 941, 935, 
    9619, 941, 935, 952, 941, 935, 9474, 941, 935, 9508, 941, 935, 9508, 941, 935, 9569, 941, 
    935, 9570, 941, 935, 9558, 941, 935, 9557, 941, 935, 9571, 941, 935, 9553, 941, 935, 9559, 
    941, 935, 9565, 941, 935, 9565, 941, 935, 9564, 941, 935, 9563, 941, 935, 9488],
   [940, 947, 953, 940, 947, 955, 940, 947, 957, 940, 947, 956, 940, 947, 958, 940, 947, 959, 
    940, 947, 960, 940, 947, 961, 940, 947, 963, 940, 947, 964, 940, 947, 965, 940, 947, 966, 
    940, 947, 967, 940, 947, 968, 940, 947, 9618, 940, 947, 9474, 940, 947, 9508, 940, 947, 
    9557, 940, 947, 9571, 940, 947, 9559, 940, 947, 9565, 940, 947, 9564, 940, 947, 9563, 940, 
    948, 916, 940, 948, 917, 940, 948, 920, 940, 948, 921, 940, 948, 922, 940, 948, 923, 940, 
    948, 924, 940, 948, 934, 940, 948, 937, 940, 948, 945, 940, 948, 937, 940, 948, 946, 940, 
    948, 949, 940, 948, 950, 940, 948, 952, 940, 948, 955, 940, 948, 956, 940, 948, 958, 940, 
    948, 959, 940, 948, 962]
  ]

/-- The inner candidate loop of `Art::free_color_name` over one set:
skip characters that fail validation, return the first validated
character not already used as a color. -/
def findFreeInList (a : Art) : List Nat → Option Char
  | [] => none
  | c :: rest =>
    match Char.new c with
    | .ok name =>
      if ¬ a.contains_color name then some name else findFreeInList a rest
    | .error _ => findFreeInList a rest

/-- The outer loop of `Art::free_color_name` over the curated sets. -/
def findFreeInSets (a : Art) : List (List Nat) → Option Char
  | [] => none
  | set :: rest =>
    match findFreeInList a set with
    | some name => some name
    | none => findFreeInSets a rest

/-- Rust `char::from_u32`: valid for non-surrogate scalar values. -/
def char_from_u32 (code : Nat) : Option Nat :=
  if code < 0x110000 ∧ ¬ (0xD800 ≤ code ∧ code ≤ 0xDFFF) then some code
  else none

/-- The exhaustive fallback scan of `Art::free_color_name` over
`0..u32::MAX`; codes from 0x110000 up yield no `char`, so scanning the
first 0x110000 codes is observationally the full u32 range. -/
def findFreeScan (a : Art) (code : Nat) : Nat → Option Char
  | 0 => none
  | fuel + 1 =>
    match char_from_u32 code with
    | some ch =>
      match Char.new ch with
      | .ok name =>
        if ¬ a.contains_color name then some name
        else findFreeScan a (code + 1) fuel
      | .error _ => findFreeScan a (code + 1) fuel
    | none => findFreeScan a (code + 1) fuel

/-- src/art.rs `Art::free_color_name`: curated sets first, then the
exhaustive scan; `none` models the final unreachable-exhaustion panic. -/
def Art.free_color_name (a : Art) : Option Char :=
  match findFreeInSets a curatedSets with
  | some name => some name
  | none => findFreeScan a 0 0x110000

/-- A document whose cells use exactly the sixteen built-in color
characters 0-9 a-f as color references, with an empty explicit palette. -/
def artSixteen : Art :=
  ⟨Header.default,
   ⟨none, none, 16, 1,
    [⟨16, 16, [(lit "0123456789abcdef").map (fun c => ⟨SPACE, some ⟨c⟩⟩)]⟩]⟩,
   none, []⟩

/-- No cell of any listed row carries a color reference. -/
def rowsNoColor (rows : List (List Cell)) : Prop :=
  ∀ row ∈ rows, ∀ cell ∈ row, cell.color = none

/-- Invariant of the legacy scan in `BgOnly` mode: the `Fg` state is
unreachable, so no accumulated cell ever receives a color. -/
def LegacyState.NoColor (st : LegacyState) : Prop :=
  st.mode ≠ .Fg ∧ (∀ cell ∈ st.row, cell.color = none) ∧
    rowsNoColor st.frame.rows ∧ ∀ fr ∈ st.frames, rowsNoColor fr.rows

/-! ## Shared list lemmas -/

lemma getD_eq_get {α} (l : List α) (d : α) (i : Nat) (h : i < l.length) :
    l.getD i d = l.get ⟨i, h⟩ := by
  induction l generalizing i with
  | nil => cases h
  | cons a t ih =>
    cases i with
    | zero => rfl
    | succ j => exact ih j (Nat.lt_of_succ_lt_succ h)

lemma getD_set_self {α} (l : List α) (i : Nat) (x d : α) (h : i < l.length) :
    (l.set i x).getD i d = x := by
  induction l generalizing i with
  | nil => cases h
  | cons a t ih =>
    cases i with
    | zero => rfl
    | succ j => exact ih j (Nat.lt_of_succ_lt_succ h)

lemma countP_set {α} (p : α → Bool) (l : List α) (i : Nat) (x : α)
    (h : i < l.length) :
    (l.set i x).countP p + (if p (l.get ⟨i, h⟩) then 1 else 0)
      = l.countP p + (if p x then 1 else 0) := by
  induction l generalizing i with
  | nil => cases h
  | cons a t ih =>
    cases i with
    | zero =>
      simp only [List.set, List.get, List.countP_cons]
      omega
    | succ j =>
      have := ih j (Nat.lt_of_succ_lt_succ h)
      simp only [List.set, List.get, List.countP_cons]
      omega

lemma summap_set {α} (g : α → Nat) (l : List α) (i : Nat) (x : α)
    (h : i < l.length) :
    ((l.set i x).map g).sum + g (l.get ⟨i, h⟩) = (l.map g).sum + g x := by
  induction l generalizing i with
  | nil => cases h
  | cons a t ih =>
    cases i with
    | zero => simp only [List.set, List.get, List.map_cons, List.sum_cons]; omega
    | succ j =>
      have := ih j (Nat.lt_of_succ_lt_succ h)
      simp only [List.set, List.get, List.map_cons, List.sum_cons]
      omega

lemma mem_of_getD {α} (l : List α) (d : α) (i : Nat) (h : i < l.length) :
    l.getD i d ∈ l := by
  rw [getD_eq_get l d i h]
  exact l.get_mem i h

lemma foldl_inv {α β : Type} {P : β → Prop} (f : β → α → β)
    (hstep : ∀ b a, P b → P (f b a)) :
    ∀ (l : List α) (b : β), P b → P (l.foldl f b) := by
  intro l
  induction l with
  | nil => intro b hb; exact hb
  | cons a t ih => intro b hb; exact ih (f b a) (hstep b a hb)

/-! ## Claim theorems -/

/-- C5: `normalize_text` is idempotent, every character of its output
passes `check_char`, and characters rejected by `check_char` are
silently dropped from the output rather than reported. -/
theorem C5_normalize_text_idem_valid :
    (∀ s : List Nat, normalize_text (normalize_text s) = normalize_text s) ∧
    (∀ (s : List Nat) (c : Nat), c ∈ normalize_text s → (check_char c).isSome) ∧
    (∀ (s : List Nat) (c : Nat), check_char c = none → c ∉ normalize_text s) := by
  refine ⟨normalize_text_idem, ?_, ?_⟩
  · intro s c hc
    rw [check_char_of_mem_normalize hc]
    rfl
  · intro s c hnone hmem
    rw [check_char_of_mem_normalize hmem] at hnone
    exact Option.noConfusion hnone

/-- C5 witness: evaluated at the concrete string "a\tb\x01". -/
theorem C5_normalize_text_idem_valid_witness :
    (check_char 0x61).isSome ∧ (1 : Nat) ∉ normalize_text [0x61, 0x09, 0x62, 0x01] :=
  ⟨C5_normalize_text_idem_valid.2.1 [0x61, 0x09, 0x62, 0x01] 0x61 (by decide),
   C5_normalize_text_idem_valid.2.2 [0x61, 0x09, 0x62, 0x01] 1 (by decide)⟩

/-- C9: `Frames::contains_text` computes exactly `Frames::contains_color`
(its loop consults `Frame::contains_color`): it reports whether the
character occurs as a color reference, not as a text character, and
`Art::contains_text` inherits this behaviour. -/
theorem C9_contains_text_is_contains_color :
    (∀ (fs : Frames) (ch : Char), fs.contains_text ch = fs.contains_color ch) ∧
    (∀ (a : Art) (ch : Char), a.contains_text ch = a.frames.contains_color ch) :=
  ⟨fun _ _ => rfl, fun _ _ => rfl⟩

lemma adjust_color_rows (f : Frame) (o n : Cell) :
    (f.adjust_color o n).rows = f.rows := by
  unfold Frame.adjust_color
  cases o.hasColor <;> cases n.hasColor <;> rfl

lemma adjust_color_width (f : Frame) (o n : Cell) :
    (f.adjust_color o n).width = f.width := by
  unfold Frame.adjust_color
  cases o.hasColor <;> cases n.hasColor <;> rfl

lemma adjust_color_color (f : Frame) (o n : Cell) :
    (f.adjust_color o n).color =
      match o.hasColor, n.hasColor with
      | true, true => f.color
      | true, false => f.color - 1
      | false, true => f.color + 1
      | false, false => f.color := by
  unfold Frame.adjust_color
  cases o.hasColor <;> cases n.hasColor <;> rfl

/-- C2: on a well-formed frame whose maintained color counter is correct,
`set` at an in-bounds position makes `get` return the new cell (for any
default), and keeps the counter equal to a fresh full recount. -/
theorem C2_set_get_color_counter (f : Frame) (col row : Nat) (cell d : Cell)
    (hwf : f.WF) (hc : col < f.width) (hr : row < f.height)
    (hcount : f.color = colorCount f.rows) :
    (f.set col row cell).get col row d = cell ∧
    (f.set col row cell).color = colorCount (f.set col row cell).rows := by
  have hrl : row < f.rows.length := hr
  have hrowmem : f.rows.getD row [] ∈ f.rows := mem_of_getD f.rows [] row hrl
  have hrowlen : (f.rows.getD row []).length = f.width := hwf _ hrowmem
  have hcl : col < (f.rows.getD row []).length := by omega
  have hguard : col < f.width ∧ row < f.height := ⟨hc, hr⟩
  have hset : f.set col row cell =
      Frame.adjust_color
        { f with rows := f.rows.set row ((f.rows.getD row []).set col cell) }
        (f.cellAt row col) cell := by
    unfold Frame.set
    rw [if_pos hguard]
  have hrows : (f.set col row cell).rows
      = f.rows.set row ((f.rows.getD row []).set col cell) := by
    rw [hset, adjust_color_rows]
  have hwidth : (f.set col row cell).width = f.width := by
    rw [hset, adjust_color_width]
  have hlen : (f.set col row cell).rows.length = f.rows.length := by
    rw [hrows, List.length_set]
  have hh : row < (f.set col row cell).height := by
    show row < (f.set col row cell).rows.length
    rw [hlen]
    exact hrl
  have hw2 : col < (f.set col row cell).width := by
    rw [hwidth]
    exact hc
  constructor
  · unfold Frame.get
    rw [if_pos ⟨hw2, hh⟩]
    unfold Frame.cellAt
    rw [hrows, getD_set_self _ _ _ _ hrl, getD_set_self _ _ _ _ hcl]
  · have hold : f.cellAt row col = (f.rows.getD row []).get ⟨col, hcl⟩ := by
      unfold Frame.cellAt
      exact getD_eq_get _ _ _ hcl
    have E1 := countP_set (fun cl => cl.hasColor) (f.rows.getD row []) col cell hcl
    have E2 := summap_set (fun rw => rw.countP (fun cl => cl.hasColor)) f.rows row
      ((f.rows.getD row []).set col cell) hrl
    have hrowget : f.rows.get ⟨row, hrl⟩ = f.rows.getD row [] :=
      (getD_eq_get _ _ _ hrl).symm
    rw [hrowget] at E2
    rw [hset, adjust_color_color, adjust_color_rows]
    rw [← hold] at E1
    unfold colorCount at hcount ⊢
    cases ho : (f.cellAt row col).hasColor <;> cases hn : cell.hasColor <;>
      simp only [ho, hn, Bool.false_eq_true, if_true, if_false] at E1 ⊢ <;> omega

/-- C2 witness: a 1×1 frame with a correct counter, setting a colored
cell at (0, 0). -/
theorem C2_set_get_color_counter_witness :
    ((Frame.new 1 1 Cell.default).set 0 0 ⟨⟨0x78⟩, some ⟨0x72⟩⟩).get 0 0 Cell.default
        = ⟨⟨0x78⟩, some ⟨0x72⟩⟩ ∧
    ((Frame.new 1 1 Cell.default).set 0 0 ⟨⟨0x78⟩, some ⟨0x72⟩⟩).color
        = colorCount ((Frame.new 1 1 Cell.default).set 0 0 ⟨⟨0x78⟩, some ⟨0x72⟩⟩).rows :=
  C2_set_get_color_counter (Frame.new 1 1 Cell.default) 0 0 ⟨⟨0x78⟩, some ⟨0x72⟩⟩
    Cell.default (by intro r hrw; fin_cases hrw; rfl) (by decide) (by decide) (by decide)

section PaletteLemmas

variable {β : Type}

lemma lookup_none_of_forall (m : List (Char × β)) (k : Char)
    (h : ∀ e ∈ m, e.1 ≠ k) : m.lookup k = none := by
  induction m with
  | nil => rfl
  | cons e t ih =>
    obtain ⟨ek, ev⟩ := e
    have hne : ¬ (ek = k) := h (ek, ev) (List.mem_cons_self _ t)
    rw [List.lookup_cons]
    simp only [beq_false_of_ne (fun hh => hne hh.symm)]
    exact ih (fun e' he' => h e' (List.mem_cons_of_mem _ he'))

lemma lookup_map_replace (k : Char) (v : β) (m : List (Char × β))
    (hany : m.any (fun e => e.1 = k) = true) :
    (m.map (fun e => if e.1 = k then (k, v) else e)).lookup k = some v := by
  induction m with
  | nil => simp at hany
  | cons e t ih =>
    obtain ⟨ek, ev⟩ := e
    by_cases he : ek = k
    · subst he
      simp [List.lookup_cons]
    · have hany' : t.any (fun e => e.1 = k) = true := by
        simpa [he] using hany
      simp only [List.map_cons, if_neg he, List.lookup_cons,
        beq_false_of_ne (fun hh => he hh.symm)]
      exact ih hany'

lemma lookup_append_last (k : Char) (v : β) (m : List (Char × β))
    (hnone : m.any (fun e => e.1 = k) = false) :
    (m ++ [(k, v)]).lookup k = some v := by
  induction m with
  | nil => simp [List.lookup_cons]
  | cons e t ih =>
    obtain ⟨ek, ev⟩ := e
    simp only [List.any_cons, Bool.or_eq_false_iff, decide_eq_false_iff_not] at hnone
    rw [List.cons_append, List.lookup_cons]
    simp only [beq_false_of_ne (fun hh => hnone.1 hh.symm)]
    exact ih (by simp [hnone.2])

lemma lookup_omInsert_self (m : List (Char × (ColorPair × Comments)))
    (k : Char) (v : ColorPair × Comments) :
    (omInsert m k v).lookup k = some v := by
  unfold omInsert
  by_cases hany : m.any (fun e => e.1 = k) = true
  · rw [if_pos hany]
    exact lookup_map_replace k v m hany
  · rw [if_neg hany]
    exact lookup_append_last k v m (Bool.eq_false_iff.mpr hany)

lemma lookup_omRemove_self (m : List (Char × (ColorPair × Comments)))
    (k : Char) (hnd : (m.map Prod.fst).Nodup) :
    (omRemove m k).lookup k = none := by
  induction m with
  | nil => rfl
  | cons e t ih =>
    obtain ⟨ek, ev⟩ := e
    simp only [List.map_cons, List.nodup_cons] at hnd
    by_cases he : ek = k
    · have herase : omRemove ((ek, ev) :: t) k = t := by
        unfold omRemove
        simp [List.eraseP_cons, he]
      rw [herase]
      refine lookup_none_of_forall t k (fun e' he' hk => ?_)
      exact hnd.1 (he ▸ hk ▸ List.mem_map_of_mem Prod.fst he')
    · have herase : omRemove ((ek, ev) :: t) k = (ek, ev) :: omRemove t k := by
        unfold omRemove
        simp [List.eraseP_cons, he]
      rw [herase, List.lookup_cons]
      simp only [beq_false_of_ne (fun hh => he hh.symm)]
      exact ih hnd.2

lemma any_omInsert_self (m : List (Char × (ColorPair × Comments)))
    (k : Char) (v : ColorPair × Comments) :
    (omInsert m k v).any (fun e => e.1 = k) = true := by
  unfold omInsert
  by_cases hany : m.any (fun e => e.1 = k) = true
  · rw [if_pos hany]
    rw [List.any_eq_true] at hany ⊢
    obtain ⟨e, hmem, he⟩ := hany
    refine ⟨(k, v), ?_, by simp⟩
    have := List.mem_map_of_mem (fun e => if e.1 = k then (k, v) else e) hmem
    simpa [of_decide_eq_true he] using this
  · rw [if_neg hany]
    rw [List.any_eq_true]
    refine ⟨(k, v), List.mem_append_right _ ?_, by simp⟩
    exact List.mem_cons_self _ _

lemma any_omRemove_self (m : List (Char × (ColorPair × Comments)))
    (k : Char) (hnd : (m.map Prod.fst).Nodup) :
    (omRemove m k).any (fun e => e.1 = k) = false := by
  induction m with
  | nil => rfl
  | cons e t ih =>
    obtain ⟨ek, ev⟩ := e
    simp only [List.map_cons, List.nodup_cons] at hnd
    by_cases he : ek = k
    · have herase : omRemove ((ek, ev) :: t) k = t := by
        unfold omRemove
        simp [List.eraseP_cons, he]
      rw [herase, List.any_eq_false]
      intro e' he'
      simp only [decide_eq_true_eq]
      intro hk
      exact hnd.1 (he ▸ hk ▸ List.mem_map_of_mem Prod.fst he')
    · have herase : omRemove ((ek, ev) :: t) k = (ek, ev) :: omRemove t k := by
        unfold omRemove
        simp [List.eraseP_cons, he]
      rw [herase]
      simp [List.any_cons, he, ih hnd.2]

end PaletteLemmas

/-- C3: after `set_color(n, c)`, `get_color(n)` returns `c`; the explicit
map holds an entry for `n` exactly when `c` differs from `n`'s built-in
default pair; and lookups of characters without explicit entries fall
back to the built-in mapping. -/
theorem C3_palette_set_get (p : Palette) (n : Char) (c : ColorPair)
    (hnd : (p.palette.map Prod.fst).Nodup) :
    ((p.set_color n c).get_color n = c) ∧
    ((p.set_color n c).contains_color n = true ↔ c ≠ ColorPair.from_char_builtin n) ∧
    (∀ m : Char, p.contains_color m = false →
      p.get_color m = ColorPair.from_char_builtin m) := by
  refine ⟨?_, ?_, ?_⟩
  · unfold Palette.set_color Palette.get_color
    by_cases hb : ColorPair.from_char_builtin n = c
    · rw [if_pos hb]
      simp only [lookup_omRemove_self p.palette n hnd]
      exact hb
    · rw [if_neg hb]
      simp only [lookup_omInsert_self p.palette n (c, [])]
  · unfold Palette.set_color Palette.contains_color
    by_cases hb : ColorPair.from_char_builtin n = c
    · rw [if_pos hb]
      simp only [any_omRemove_self p.palette n hnd]
      constructor
      · intro hfalse
        exact absurd hfalse (by simp)
      · intro hne
        exact absurd hb.symm hne
    · rw [if_neg hb]
      simp only [any_omInsert_self p.palette n (c, [])]
      exact ⟨fun _ hh => hb hh.symm, fun _ => trivial⟩
  · intro m hnc
    unfold Palette.get_color
    unfold Palette.contains_color at hnc
    rw [List.any_eq_false] at hnc
    rw [lookup_none_of_forall p.palette m
      (fun e he hk => by simpa [hk] using hnc e he)]

/-- C3 witness: an empty palette, the character `r`, and the pair
`fg:red` (which differs from the built-in default of `r`). -/
theorem C3_palette_set_get_witness :
    ((Palette.set_color ⟨[]⟩ ⟨0x72⟩ ⟨.Color4 .Red false, .None⟩).get_color ⟨0x72⟩
        = ⟨.Color4 .Red false, .None⟩) ∧
    ((Palette.set_color ⟨[]⟩ ⟨0x72⟩ ⟨.Color4 .Red false, .None⟩).contains_color ⟨0x72⟩ = true ↔
        (⟨.Color4 .Red false, .None⟩ : ColorPair) ≠ ColorPair.from_char_builtin ⟨0x72⟩) ∧
    (∀ m : Char, Palette.contains_color ⟨[]⟩ m = false →
        Palette.get_color ⟨[]⟩ m = ColorPair.from_char_builtin m) :=
  C3_palette_set_get ⟨[]⟩ ⟨0x72⟩ ⟨.Color4 .Red false, .None⟩ (by simp)

lemma chainAllEq_iff (x : Option Char) (l : List (Option Char)) :
    chainAllEq (x :: l) = true ↔ ∀ y ∈ l, y = x := by
  induction l generalizing x with
  | nil => simp [chainAllEq]
  | cons y rest ih =>
    have hstep : chainAllEq (x :: y :: rest) = (decide (x = y) && chainAllEq (y :: rest)) := rfl
    rw [hstep, Bool.and_eq_true, decide_eq_true_eq, ih]
    constructor
    · rintro ⟨hxy, hchain⟩ z hz
      rcases List.mem_cons.mp hz with h | h
      · rw [h, hxy]
      · rw [hchain z h, hxy]
    · intro hall
      have hyx : y = x := hall y (List.mem_cons_self y rest)
      exact ⟨hyx.symm, fun z hz => (hall z (List.mem_cons_of_mem _ hz)).trans hyx.symm⟩

lemma chain_map_iff (gg : Frame → Option Char) (f0 : Frame) (rest : List Frame) :
    chainAllEq ((f0 :: rest).map gg) = true ↔ ∀ fr ∈ f0 :: rest, gg fr = gg f0 := by
  rw [List.map_cons, chainAllEq_iff]
  constructor
  · intro hl fr hfr
    rcases List.mem_cons.mp hfr with h | h
    · rw [h]
    · exact hl (gg fr) (List.mem_map_of_mem gg h)
  · intro hl y hy
    obtain ⟨fr, hfr, rfl⟩ := List.mem_map.mp hy
    exact hl fr (List.mem_cons_of_mem _ hfr)

lemma all_chain_iff (w hgt : Nat) (frames : List Frame)
    (g : Nat → Nat → Frame → Option Char) (hne : frames ≠ []) :
    (((List.range w).all (fun c => (List.range hgt).all (fun r =>
        chainAllEq (frames.map (g r c))))) = true)
      ↔ ∀ c < w, ∀ r < hgt, ∀ fr ∈ frames,
          g r c fr = g r c (frames.headD ⟨0, 0, []⟩) := by
  cases frames with
  | nil => exact absurd rfl hne
  | cons f0 rest =>
    simp only [List.all_eq_true, List.mem_range, List.headD_cons]
    constructor
    · intro hall c hc r hr
      exact (chain_map_iff (g r c) f0 rest).mp (hall c hc r hr)
    · intro hall c hc r hr
      exact (chain_map_iff (g r c) f0 rest).mpr (hall c hc r hr)

lemma pinned_fst_iff (fs : Frames) (h2 : 2 ≤ fs.frames.length) :
    fs.pinned.1 = true ↔ ∀ c < fs.width, ∀ r < fs.height, ∀ fr ∈ fs.frames,
      (fr.cellAt r c).text = ((fs.frames.headD ⟨0, 0, []⟩).cellAt r c).text := by
  have hne : fs.frames ≠ [] := by
    intro h
    rw [h] at h2
    simp at h2
  unfold Frames.pinned
  rw [if_neg (by omega)]
  have hiff := all_chain_iff fs.width fs.height fs.frames
    (fun r c fr => some ((fr.cellAt r c).text)) hne
  simp only [Option.some_inj] at hiff
  exact hiff

lemma pinned_snd_iff (fs : Frames) (h2 : 2 ≤ fs.frames.length) :
    fs.pinned.2 = true ↔ ∀ c < fs.width, ∀ r < fs.height, ∀ fr ∈ fs.frames,
      (fr.cellAt r c).color = ((fs.frames.headD ⟨0, 0, []⟩).cellAt r c).color := by
  have hne : fs.frames ≠ [] := by
    intro h
    rw [h] at h2
    simp at h2
  unfold Frames.pinned
  rw [if_neg (by omega)]
  exact all_chain_iff fs.width fs.height fs.frames
    (fun r c fr => (fr.cellAt r c).color) hne

/-- C6: with fewer than two frames `pinned()` is `(false, false)`; with
at least two frames that are all equal it is `(true, true)`; and in
general each component is true exactly when its channel agrees at every
cell position across all frames. -/
theorem C6_pinned_derived (fs : Frames) :
    (fs.frames.length < 2 → fs.pinned = (false, false)) ∧
    (2 ≤ fs.frames.length →
      (∀ fr ∈ fs.frames, fr = fs.frames.headD ⟨0, 0, []⟩) →
      fs.pinned = (true, true)) ∧
    (2 ≤ fs.frames.length →
      (fs.pinned.1 = true ↔ ∀ c < fs.width, ∀ r < fs.height, ∀ fr ∈ fs.frames,
        (fr.cellAt r c).text = ((fs.frames.headD ⟨0, 0, []⟩).cellAt r c).text)) ∧
    (2 ≤ fs.frames.length →
      (fs.pinned.2 = true ↔ ∀ c < fs.width, ∀ r < fs.height, ∀ fr ∈ fs.frames,
        (fr.cellAt r c).color = ((fs.frames.headD ⟨0, 0, []⟩).cellAt r c).color)) := by
  refine ⟨?_, ?_, fun h2 => pinned_fst_iff fs h2, fun h2 => pinned_snd_iff fs h2⟩
  · intro hlt
    unfold Frames.pinned
    rw [if_pos hlt]
  · intro h2 hall
    have h1 : fs.pinned.1 = true := by
      rw [pinned_fst_iff fs h2]
      intro c _ r _ fr hfr
      rw [hall fr hfr]
    have hsnd : fs.pinned.2 = true := by
      rw [pinned_snd_iff fs h2]
      intro c _ r _ fr hfr
      rw [hall fr hfr]
    exact Prod.ext h1 hsnd

/-- C6 witness: an empty animation reports `(false, false)`; two equal
1×1 frames report `(true, true)`. -/
theorem C6_pinned_derived_witness :
    Frames.pinned ⟨none, none, 1, 1, []⟩ = (false, false) ∧
    Frames.pinned ⟨none, none, 1, 1,
      [Frame.new 1 1 Cell.default, Frame.new 1 1 Cell.default]⟩ = (true, true) :=
  ⟨(C6_pinned_derived ⟨none, none, 1, 1, []⟩).1 (by decide),
   (C6_pinned_derived ⟨none, none, 1, 1,
      [Frame.new 1 1 Cell.default, Frame.new 1 1 Cell.default]⟩).2.1
     (by decide) (by decide)⟩

/-- C7: in one parse of a modern document body a second text-pin block
(or color-pin block) is rejected with a duplicate-block error: with a
pin already recorded, the block readers fail on every input, and after
a successful read that set a pin, a further read of the same block
fails. -/
theorem C7_duplicate_pin_blocks :
    (∀ (fs : Frames) (f : Frame) (lines : List (List Nat)),
      fs.text_pin = some f →
      fs.read_text_pin lines = .error (.BlockDup "text-pin")) ∧
    (∀ (fs : Frames) (f : Frame) (lines : List (List Nat)),
      fs.color_pin = some f →
      fs.read_color_pin lines = .error (.BlockDup "color-pin")) ∧
    (∀ (fs fs' : Frames) (lines lines2 : List (List Nat)) (rest : List (List Nat)),
      fs.read_text_pin lines = .ok (fs', rest) → fs'.text_pin ≠ none →
      fs'.read_text_pin lines2 = .error (.BlockDup "text-pin")) ∧
    (∀ (fs fs' : Frames) (lines lines2 : List (List Nat)) (rest : List (List Nat)),
      fs.read_color_pin lines = .ok (fs', rest) → fs'.color_pin ≠ none →
      fs'.read_color_pin lines2 = .error (.BlockDup "color-pin")) := by
  refine ⟨?_, ?_, ?_, ?_⟩
  · intro fs f lines hpin
    unfold Frames.read_text_pin
    rw [if_pos (by rw [hpin]; exact fun h => Option.noConfusion h)]
  · intro fs f lines hpin
    unfold Frames.read_color_pin
    rw [if_pos (by rw [hpin]; exact fun h => Option.noConfusion h)]
  · intro fs fs' lines lines2 rest _ hpin
    unfold Frames.read_text_pin
    rw [if_pos hpin]
  · intro fs fs' lines lines2 rest _ hpin
    unfold Frames.read_color_pin
    rw [if_pos hpin]

/-- C7 witness: a frames value whose text pin is already set rejects a
second text-pin block, and similarly for color pins. -/
theorem C7_duplicate_pin_blocks_witness :
    Frames.read_text_pin
        ⟨some (Frame.new 1 1 Cell.default), none, 1, 1, []⟩ []
      = .error (.BlockDup "text-pin") ∧
    Frames.read_color_pin
        ⟨none, some (Frame.new 1 1 Cell.default), 1, 1, []⟩ []
      = .error (.BlockDup "color-pin") :=
  ⟨C7_duplicate_pin_blocks.1 ⟨some (Frame.new 1 1 Cell.default), none, 1, 1, []⟩
      (Frame.new 1 1 Cell.default) [] rfl,
   C7_duplicate_pin_blocks.2.1 ⟨none, some (Frame.new 1 1 Cell.default), 1, 1, []⟩
      (Frame.new 1 1 Cell.default) [] rfl⟩

lemma getD_map_range {α} (g : Nat → α) (n r : Nat) (d : α) (h : r < n) :
    ((List.range n).map g).getD r d = g r := by
  have hlen : r < ((List.range n).map g).length := by simpa using h
  rw [getD_eq_get _ _ _ hlen, List.get_eq_getElem]
  simp

lemma merge_frames_ok (B P : Frame) (hw : B.width = P.width)
    (hh : B.height = P.height) :
    ∃ M, merge_frames B P = .ok M ∧ M.width = B.width ∧ M.height = B.height ∧
      M.WF ∧ M.color = colorCount M.rows ∧
      ∀ r c, r < B.height → c < B.width →
        (M.cellAt r c).text = (B.cellAt r c).text ∧
        (M.cellAt r c).color = (P.cellAt r c).color := by
  unfold merge_frames
  rw [if_neg (by simp [hh]), if_neg (by simp [hw])]
  have hf0h : (Frame.new B.width B.height Cell.default).height = B.height := by
    simp [Frame.new, Frame.height]
  have hf0w : (Frame.new B.width B.height Cell.default).width = B.width := rfl
  refine ⟨_, rfl, rfl, ?_, ?_, rfl, ?_⟩
  · simp [Frame.recalc_colors, Frame.height, Frame.new]
  · intro row hrow
    simp only [Frame.recalc_colors, hf0h, hf0w, List.mem_map] at hrow ⊢
    obtain ⟨r, _, rfl⟩ := hrow
    simp [Frame.new]
  · intro r c hr hc
    have hcell : (Frame.recalc_colors
        { Frame.new B.width B.height Cell.default with
          rows := (List.range (Frame.new B.width B.height Cell.default).height).map
            (fun r => (List.range (Frame.new B.width B.height Cell.default).width).map
              (fun c => { text := (B.cellAt r c).text, color := (P.cellAt r c).color })) }).cellAt r c
        = ({ text := (B.cellAt r c).text, color := (P.cellAt r c).color } : Cell) := by
      unfold Frame.cellAt Frame.recalc_colors
      simp only [hf0h, hf0w]
      rw [getD_map_range _ _ _ _ hr, getD_map_range _ _ _ _ hc]
    rw [hcell]
    exact ⟨rfl, rfl⟩

lemma merge_frames_height_err (B P : Frame) (h : B.height ≠ P.height) :
    merge_frames B P = .error .HeightMismatch := by
  unfold merge_frames
  rw [if_pos h]

lemma merge_frames_width_err (B P : Frame) (hh : B.height = P.height)
    (h : B.width ≠ P.width) : merge_frames B P = .error .WidthMismatch := by
  unfold merge_frames
  rw [if_neg (by simp [hh]), if_pos h]

lemma mapM_ok_of_forall {g : Frame → Except Error Frame} {m : Frame → Frame}
    (l : List Frame) (h : ∀ f ∈ l, g f = .ok (m f)) :
    l.mapM g = .ok (l.map m) := by
  induction l with
  | nil => rfl
  | cons a t ih =>
    rw [List.mapM_cons, h a (List.mem_cons_self a t),
      ih (fun f hf => h f (List.mem_cons_of_mem _ hf))]
    rfl

/-- C1: merging a body frame with a same-sized color pin succeeds and
combines the body's text with the pin's color at every cell; a height or
width mismatch is the corresponding hard error; and `Frames::merge` with
a color pin set replaces every body frame's color channel by the pin's
while keeping the body's text. -/
theorem C1_merge_pin_channels :
    (∀ B P : Frame, B.width = P.width → B.height = P.height →
      ∃ M, merge_frames B P = .ok M ∧ M.width = B.width ∧ M.height = B.height ∧
        M.WF ∧ M.color = colorCount M.rows ∧
        ∀ r c, r < B.height → c < B.width →
          (M.cellAt r c).text = (B.cellAt r c).text ∧
          (M.cellAt r c).color = (P.cellAt r c).color) ∧
    (∀ B P : Frame, B.height ≠ P.height →
      merge_frames B P = .error .HeightMismatch) ∧
    (∀ B P : Frame, B.height = P.height → B.width ≠ P.width →
      merge_frames B P = .error .WidthMismatch) ∧
    (∀ (fs : Frames) (cp : Frame), fs.color_pin = some cp → fs.text_pin = none →
      (∀ f ∈ fs.frames, f.width = cp.width ∧ f.height = cp.height) →
      ∃ fs', fs.merge = .ok fs' ∧ fs'.text_pin = none ∧ fs'.color_pin = none ∧
        fs'.frames.length = fs.frames.length ∧
        ∀ i (hi : i < fs.frames.length) (hi' : i < fs'.frames.length) r c,
          r < (fs.frames.get ⟨i, hi⟩).height → c < (fs.frames.get ⟨i, hi⟩).width →
          ((fs'.frames.get ⟨i, hi'⟩).cellAt r c).text
              = ((fs.frames.get ⟨i, hi⟩).cellAt r c).text ∧
          ((fs'.frames.get ⟨i, hi'⟩).cellAt r c).color = (cp.cellAt r c).color) := by
  refine ⟨merge_frames_ok, merge_frames_height_err, merge_frames_width_err, ?_⟩
  intro fs cp hcp htp hdims
  classical
  choose M hM using fun (f : Frame) (hf : f ∈ fs.frames) =>
    merge_frames_ok f cp (hdims f hf).1 (hdims f hf).2
  have hall : ∀ f ∈ fs.frames,
      merge_frames f cp
        = .ok (if hf : f ∈ fs.frames then M f hf else f) := by
    intro f hf
    rw [dif_pos hf]
    exact (hM f hf).1
  have hmapm := mapM_ok_of_forall fs.frames hall
  unfold Frames.merge
  rw [hcp, htp]
  simp only [hmapm]
  refine ⟨_, rfl, rfl, rfl, by simp, ?_⟩
  intro i hi hi' r c hr hc
  have hget : (fs.frames.map
        (fun f => if hf : f ∈ fs.frames then M f hf else f)).get
          ⟨i, hi'⟩
      = (fun f => if hf : f ∈ fs.frames then M f hf else f)
          (fs.frames.get ⟨i, hi⟩) := by
    rw [List.get_eq_getElem, List.get_eq_getElem]
    simp
  set f := fs.frames.get ⟨i, hi⟩ with hf
  have hfmem : f ∈ fs.frames := by
    rw [hf]
    exact fs.frames.get_mem i hi
  rw [hget]
  simp only [dif_pos hfmem]
  obtain ⟨-, -, -, -, -, hcells⟩ := hM f hfmem
  exact hcells r c hr hc

/-- C1 witness: dimension mismatches produce the two errors at concrete
1×1, 1×2 and 2×1 frames. -/
theorem C1_merge_pin_channels_witness :
    merge_frames (Frame.new 1 1 Cell.default) (Frame.new 1 2 Cell.default)
        = .error .HeightMismatch ∧
    merge_frames (Frame.new 2 1 Cell.default) (Frame.new 1 1 Cell.default)
        = .error .WidthMismatch :=
  ⟨C1_merge_pin_channels.2.1 (Frame.new 1 1 Cell.default)
      (Frame.new 1 2 Cell.default) (by decide),
   C1_merge_pin_channels.2.2.1 (Frame.new 2 1 Cell.default)
      (Frame.new 1 1 Cell.default) (by decide) (by decide)⟩

lemma legacyChar_noColor (info : LegacyHeaderInfo) (hBg : info.colors = .BgOnly)
    (st : LegacyState) (c : Nat) (h : st.NoColor) :
    (legacyChar info st c).NoColor := by
  obtain ⟨hmode, hrow, hframe, hframes⟩ := h
  unfold legacyChar
  cases hm : st.mode with
  | Fg => exact absurd hm hmode
  | Text =>
    simp only [hm]
    have hnext : LegacyScanMode.next .Text info.colors = .Bg := by rw [hBg]; rfl
    split_ifs <;> refine ⟨?_, ?_, ?_, ?_⟩ <;>
      simp_all [LegacyState.NoColor, rowsNoColor, List.mem_append,
        List.mem_singleton, hnext] <;>
      first
        | exact hrow
        | exact hframe
        | exact hframes
        | (rintro x (hx | rfl) <;>
           first
             | exact hrow _ hx
             | exact hframe _ hx
             | exact hframes _ hx
             | rfl
             | exact hframe
             | exact hrow
             | (intro row hr2
                rcases List.mem_append.mp hr2 with hr3 | hr3
                · exact hframe row hr3
                · rw [List.mem_singleton.mp hr3]
                  exact hrow))
  | Bg =>
    simp only [hm]
    have hnext : LegacyScanMode.next .Bg info.colors = .Text := by rw [hBg]; rfl
    split_ifs <;> refine ⟨?_, ?_, ?_, ?_⟩ <;>
      simp_all [LegacyState.NoColor, rowsNoColor, List.mem_append,
        List.mem_singleton, hnext] <;>
      first
        | exact hrow
        | exact hframe
        | exact hframes
        | (rintro x (hx | rfl) <;>
           first
             | exact hrow _ hx
             | exact hframe _ hx
             | exact hframes _ hx
             | rfl
             | exact hframe
             | exact hrow
             | (intro row hr2
                rcases List.mem_append.mp hr2 with hr3 | hr3
                · exact hframe row hr3
                · rw [List.mem_singleton.mp hr3]
                  exact hrow))

lemma legacyLine_noColor (info : LegacyHeaderInfo) (hBg : info.colors = .BgOnly)
    (st : LegacyState) (line : List Nat) (h : st.NoColor) :
    (legacyLine info st line).NoColor := by
  have hstep : ∀ (p : Bool × LegacyState) (a : Nat), p.2.NoColor →
      ((if p.1 = true then p
        else if a = 0x09 then (true, p.2)
        else (p.1, legacyChar info p.2 a)) : Bool × LegacyState).2.NoColor := by
    intro p a hp
    by_cases hc1 : p.1 = true
    · simpa [hc1] using hp
    · by_cases hc2 : a = 0x09
      · simpa [hc1, hc2] using hp
      · simpa [hc1, hc2] using legacyChar_noColor info hBg p.2 a hp
  unfold legacyLine
  dsimp only
  split_ifs <;>
    first
      | exact h
      | exact @foldl_inv Nat (Bool × LegacyState) (fun p => p.2.NoColor) _ hstep _ (false, st) h
      | simp_all

/-- C10: parsing a legacy document whose color mode is `BgOnly` yields
frames in which every cell's color is `None`: background characters are
counted to drive the scanner but never stored. -/
theorem C10_legacy_bg_discarded (info : LegacyHeaderInfo)
    (lines : List (List Nat)) (hBg : info.colors = .BgOnly) :
    ∀ fr ∈ (Frames.read_legacy info lines).frames,
      ∀ row ∈ fr.rows, ∀ cell ∈ row, cell.color = none := by
  have hinit : (⟨[], ⟨0, info.width, []⟩, [], 0, 0, .Text⟩ : LegacyState).NoColor := by
    unfold LegacyState.NoColor rowsNoColor
    refine ⟨?_, ?_, ?_, ?_⟩
    · intro hh; cases hh
    · intro cell hc; cases hc
    · intro row hr; cases hr
    · intro fr hf; cases hf
  have hfinal := foldl_inv (legacyLine info)
    (fun st line => legacyLine_noColor info hBg st line) lines _ hinit
  intro fr hfr
  exact hfinal.2.2.2 fr hfr

/-- C10 witness: a BgOnly 1×1 legacy document with text `a` and
background char `b` parses to one frame whose only cell is colorless. -/
theorem C10_legacy_bg_discarded_witness :
    ({ color := 0, width := 1, rows := [[⟨⟨0x61⟩, none⟩]] } : Frame)
        ∈ (Frames.read_legacy ⟨.BgOnly, 1, 1⟩ [[0x61, 0x62]]).frames ∧
    (⟨⟨0x61⟩, none⟩ : Cell).color = none :=
  ⟨by decide,
   C10_legacy_bg_discarded ⟨.BgOnly, 1, 1⟩ [[0x61, 0x62]] rfl
     { color := 0, width := 1, rows := [[⟨⟨0x61⟩, none⟩]] } (by decide)
     [⟨⟨0x61⟩, none⟩] (by decide) ⟨⟨0x61⟩, none⟩ (by decide)⟩

lemma check_char_not_surrogate {cp x : Nat} (h : check_char cp = some x) :
    ¬ (0xD800 ≤ cp ∧ cp ≤ 0xDFFF) := by
  intro hr
  unfold check_char at h
  split_ifs at h <;> first | exact Option.noConfusion h | omega

lemma findFreeInList_sound (a : Art) (l : List Nat) (d : Char)
    (h : findFreeInList a l = some d) :
    (∃ c, Char.new c = .ok d) ∧ a.contains_color d = false := by
  induction l with
  | nil => cases h
  | cons c rest ih =>
    unfold findFreeInList at h
    split at h
    · rename_i name hn
      by_cases hcc : a.contains_color name = true
      · rw [if_neg (fun hnx => hnx hcc)] at h
        exact ih h
      · rw [if_pos hcc] at h
        injection h with h
        subst h
        exact ⟨⟨c, hn⟩, Bool.eq_false_iff.mpr hcc⟩
    · exact ih h

lemma findFreeInSets_sound (a : Art) (sets : List (List Nat)) (d : Char)
    (h : findFreeInSets a sets = some d) :
    (∃ c, Char.new c = .ok d) ∧ a.contains_color d = false := by
  induction sets with
  | nil => cases h
  | cons set rest ih =>
    unfold findFreeInSets at h
    split at h
    · rename_i name hs
      injection h with h
      subst h
      exact findFreeInList_sound a set _ hs
    · exact ih h

lemma findFreeScan_sound (a : Art) :
    ∀ (fuel code : Nat) (d : Char), findFreeScan a code fuel = some d →
      (∃ c, Char.new c = .ok d) ∧ a.contains_color d = false := by
  intro fuel
  induction fuel with
  | zero => intro code d h; cases h
  | succ f ih =>
    intro code d h
    unfold findFreeScan at h
    split at h
    · rename_i ch hc
      split at h
      · rename_i name hn
        by_cases hcc : a.contains_color name = true
        · rw [if_neg (fun hnx => hnx hcc)] at h
          exact ih (code + 1) d h
        · rw [if_pos hcc] at h
          injection h with h
          subst h
          exact ⟨⟨ch, hn⟩, Bool.eq_false_iff.mpr hcc⟩
      · exact ih (code + 1) d h
    · exact ih (code + 1) d h

lemma findFreeScan_isSome (a : Art) :
    ∀ (fuel code cp : Nat) (d : Char), code ≤ cp → cp < code + fuel →
      char_from_u32 cp = some cp → Char.new cp = .ok d →
      a.contains_color d = false → (findFreeScan a code fuel).isSome := by
  intro fuel
  induction fuel with
  | zero => intro code cp d h1 h2 _ _ _; omega
  | succ f ih =>
    intro code cp d hle hlt hfu hnew hcont
    unfold findFreeScan
    split
    · rename_i ch hc
      have hchcode : ch = code := by
        unfold char_from_u32 at hc
        split_ifs at hc
        exact (Option.some_inj.mp hc).symm
      subst hchcode
      split
      · rename_i name hn
        by_cases hcc : a.contains_color name = true
        · have hne : cp ≠ ch := by
            intro hh
            rw [hh, hn] at hnew
            injection hnew with hnew
            rw [← hnew] at hcont
            rw [hcont] at hcc
            cases hcc
          rw [if_neg (fun hnx => hnx hcc)]
          exact ih (ch + 1) cp d (by omega) (by omega) hfu hnew hcont
        · rw [if_pos hcc]
          rfl
      · rename_i e hn
        have hne : cp ≠ ch := by
          intro hh
          rw [hh, hn] at hnew
          cases hnew
        exact ih (ch + 1) cp d (by omega) (by omega) hfu hnew hcont
    · rename_i hc
      have hne : cp ≠ code := by
        intro hh
        rw [hh, hc] at hfu
        cases hfu
      exact ih (code + 1) cp d (by omega) (by omega) hfu hnew hcont

lemma char_new_validated {c : Nat} {d : Char} (h : Char.new c = .ok d) :
    check_char d.char = some d.char := by
  unfold Char.new at h
  split at h
  · rename_i ok hk
    injection h with h
    subst h
    exact check_char_idem hk
  · exact Except.noConfusion h

/-- C8: whenever some validated character is still unused, the returned
name is validated, is not a key of the explicit palette map, and is not
a color reference of any cell of any frame; and on the document using
exactly the sixteen built-in color characters, the result is the first
curated character `g`, which is outside the built-in set. -/
theorem C8_free_color_name :
    (∀ (a : Art) (cp : Nat) (d : Char), cp < 0x110000 → Char.new cp = .ok d →
      a.contains_color d = false →
      ∃ e, a.free_color_name = some e ∧ check_char e.char = some e.char ∧
        a.header.contains_color e = false ∧ a.frames.contains_color e = false) ∧
    (artSixteen.free_color_name = some ⟨0x67⟩ ∧
      curatedSets.any (fun set => set.contains 0x67) = true ∧
      (lit "0123456789abcdef").contains 0x67 = false) := by
  constructor
  · intro a cp d hlt hnew hcont
    have hsplit : ∀ e : Char, (∃ c, Char.new c = .ok e) → a.contains_color e = false →
        a.header.contains_color e = false ∧ a.frames.contains_color e = false := by
      intro e ⟨c, hc⟩ hcf
      unfold Art.contains_color at hcf
      rw [Bool.or_eq_false_iff] at hcf
      exact hcf
    unfold Art.free_color_name
    cases hs : findFreeInSets a curatedSets with
    | some e =>
      obtain ⟨hex, hcf⟩ := findFreeInSets_sound a curatedSets e hs
      obtain ⟨c, hc⟩ := hex
      exact ⟨e, rfl, char_new_validated hc, hsplit e ⟨c, hc⟩ hcf⟩
    | none =>
      have hcc : check_char cp = some d.char := by
        unfold Char.new at hnew
        split at hnew
        · rename_i ok hk
          injection hnew with hnew
          subst hnew
          exact hk
        · exact Except.noConfusion hnew
      have hfu : char_from_u32 cp = some cp := by
        unfold char_from_u32
        rw [if_pos ⟨hlt, check_char_not_surrogate hcc⟩]
      have hsome := findFreeScan_isSome a 0x110000 0 cp d (by omega) (by omega)
        hfu hnew hcont
      cases he : findFreeScan a 0 0x110000 with
      | none =>
        rw [he] at hsome
        simp at hsome
      | some e =>
        obtain ⟨hex, hcf⟩ := findFreeScan_sound a 0x110000 0 e he
        obtain ⟨c, hc⟩ := hex
        exact ⟨e, rfl, char_new_validated hc, hsplit e ⟨c, hc⟩ hcf⟩
  · exact ⟨by decide, by decide, by decide⟩

/-- C8 witness: the general conclusion applied to the sixteen-color
document with the unused character `g`. -/
theorem C8_free_color_name_witness :
    ∃ e, artSixteen.free_color_name = some e ∧
      check_char e.char = some e.char ∧
      artSixteen.header.contains_color e = false ∧
      artSixteen.frames.contains_color e = false :=
  C8_free_color_name.1 artSixteen 0x67 ⟨0x67⟩ (by decide) rfl (by decide)

section ColorLemmas

lemma dec_roundtrip : ∀ n, n < 256 →
    Color.from_str (natDecimal n) = .ok (.Color256 n) := by decide

lemma lookup_tbl_none (tbl : List (List Nat × Color)) (t : List Nat)
    (p : Nat → Bool) (ht : t.all p = true)
    (htbl : tbl.all (fun e => !(e.1.all p)) = true) : tbl.lookup t = none := by
  induction tbl with
  | nil => rfl
  | cons e rest ih =>
    rw [List.all_cons, Bool.and_eq_true] at htbl
    obtain ⟨he, hrest⟩ := htbl
    have hne : t ≠ e.1 := by
      intro hh
      rw [← hh, ht] at he
      simp at he
    obtain ⟨ek, ev⟩ := e
    rw [List.lookup_cons]
    simp only [beq_false_of_ne hne]
    exact ih hrest

lemma parse_u8_sound {s : List Nat} {v : Nat} (h : parse_u8 s = some v) :
    v ≤ 255 := by
  unfold parse_u8 at h
  split at h
  · exact Option.noConfusion h
  · dsimp only at h
    split_ifs at h <;>
      first
        | exact Option.noConfusion h
        | (injection h with h; omega)

lemma parse_u8_digits (s : List Nat) (hne : s ≠ [])
    (hdig : s.all isAsciiDigit = true) (hle : decValue s ≤ 255) :
    parse_u8 s = some (decValue s) := by
  cases s with
  | nil => exact absurd rfl hne
  | cons c rest =>
    have hc : isAsciiDigit c = true := by
      rw [List.all_cons, Bool.and_eq_true] at hdig
      exact hdig.1
    have hc43 : ¬ (c = 0x2B) := by
      unfold isAsciiDigit at hc
      rw [Bool.and_eq_true, decide_eq_true_eq, decide_eq_true_eq] at hc
      omega
    unfold parse_u8
    dsimp only
    rw [if_neg hc43, if_neg (by intro hh; cases hh), if_pos hdig, if_pos hle]

lemma parse_hex_pair (a b : Nat) (ha : hexDigitVal a < 16)
    (hb : hexDigitVal b < 16) :
    parse_hex_u8 [a, b] = some (16 * hexDigitVal a + hexDigitVal b) := by
  have ha43 : ¬ (a = 0x2B) := by
    intro hh
    subst hh
    simp [hexDigitVal] at ha
  have hall : ([a, b]).all isHexDigitCh = true := by
    simp [isHexDigitCh, ha, hb]
  unfold parse_hex_u8
  dsimp only
  rw [if_neg ha43, if_neg (by intro hh; cases hh), if_pos hall,
    if_pos (by unfold hexValue; simp only [List.foldl]; omega)]
  unfold hexValue
  simp only [List.foldl]
  congr 1
  omega

lemma utf8Encode_ascii (s : List Nat) (h : ∀ c ∈ s, c < 0x80) :
    utf8Encode s = s := by
  induction s with
  | nil => rfl
  | cons c rest ih =>
    have hc : utf8Bytes c = [c] := by
      unfold utf8Bytes
      rw [if_pos (h c (List.mem_cons_self c rest))]
    have hrest := ih (fun x hx => h x (List.mem_cons_of_mem _ hx))
    unfold utf8Encode at hrest ⊢
    rw [List.map_cons, List.flatten_cons, hc, hrest]
    rfl

lemma hexLower_of (x : Nat) (h1 : hexDigitVal x < 16)
    (h2 : ¬ (0x41 ≤ x ∧ x ≤ 0x5A)) : isHexLowerCh x = true := by
  unfold hexDigitVal at h1
  unfold isHexLowerCh isAsciiDigit
  split_ifs at h1 <;>
    simp only [Bool.or_eq_true, Bool.and_eq_true, decide_eq_true_eq] <;> omega

lemma hex_ascii (x : Nat) (h1 : hexDigitVal x < 16) : x < 0x80 := by
  unfold hexDigitVal at h1
  split_ifs at h1 <;> omega

lemma hex_not_ws (x : Nat) (h1 : hexDigitVal x < 16) :
    rust_is_whitespace x = false := by
  unfold hexDigitVal at h1
  unfold rust_is_whitespace
  split_ifs at h1 <;>
    simp only [Bool.or_eq_false_iff, Bool.and_eq_false_iff,
      decide_eq_false_iff_not, decide_eq_true_eq] <;>
    omega

lemma dropWhile_eq_self_of {p : Nat → Bool} (l : List Nat)
    (h : ∀ c ∈ l, p c = false) : l.dropWhile p = l := by
  cases l with
  | nil => rfl
  | cons c rest =>
    rw [List.dropWhile_cons, h c (List.mem_cons_self c rest)]
    simp

lemma trim_eq_self (s : List Nat)
    (h : ∀ c ∈ s, rust_is_whitespace c = false) : rust_trim s = s := by
  unfold rust_trim
  rw [dropWhile_eq_self_of s h,
    dropWhile_eq_self_of s.reverse (fun c hc => h c (List.mem_reverse.mp hc)),
    List.reverse_reverse]

lemma lower_eq_self (s : List Nat)
    (h : ∀ c ∈ s, ¬ (0x41 ≤ c ∧ c ≤ 0x5A)) : rust_to_lowercase s = s := by
  unfold rust_to_lowercase
  induction s with
  | nil => rfl
  | cons c rest ih =>
    rw [List.map_cons, if_neg (h c (List.mem_cons_self c rest)),
      ih (fun x hx => h x (List.mem_cons_of_mem _ hx))]

lemma lower_no_upper (s : List Nat) :
    ∀ x ∈ rust_to_lowercase s, ¬ (0x41 ≤ x ∧ x ≤ 0x5A) := by
  intro x hx
  unfold rust_to_lowercase at hx
  obtain ⟨y, _, rfl⟩ := List.mem_map.mp hx
  by_cases hy : 0x41 ≤ y ∧ y ≤ 0x5A
  · rw [if_pos hy]
    omega
  · rw [if_neg hy]
    exact hy

lemma hex2_combine (va vb : Nat) (hva : va < 16) (hvb : vb < 16) :
    hex2 (16 * va + vb) = [hexDigitCh va, hexDigitCh vb] := by
  unfold hex2
  have h1 : (16 * va + vb) / 16 % 16 = va := by omega
  have h2 : (16 * va + vb) % 16 = vb := by omega
  rw [h1, h2]

lemma hexDigitCh_of_lower (a : Nat) (ha : isHexLowerCh a = true) :
    hexDigitCh (hexDigitVal a) = a := by
  unfold isHexLowerCh isAsciiDigit at ha
  rw [Bool.or_eq_true, Bool.and_eq_true, Bool.and_eq_true] at ha
  simp only [decide_eq_true_eq] at ha
  unfold hexDigitVal hexDigitCh
  split_ifs <;> omega

lemma list_len6 (l : List Nat) (h : l.length = 6) :
    ∃ a b c d e f, l = [a, b, c, d, e, f] := by
  rcases l with _ | ⟨a, _ | ⟨b, _ | ⟨c, _ | ⟨d, _ | ⟨e, _ | ⟨f, rest⟩⟩⟩⟩⟩⟩ <;>
    simp_all

lemma colorNameTable_roundtrip :
    colorNameTable.all (fun e =>
      decide (colorNameTable.lookup e.1 = some e.2) &&
        decide (Color.from_str (Color.display e.2) = .ok e.2)) = true := by
  decide

end ColorLemmas

/-- C4 counterexample: `Color::from_str` accepts the string `+0+123`
(which is not a name, a bare decimal, or six hex digits) as the color
RGB(0, 1, 35), but re-parsing its `Display` rendering `000123` yields
the 256-color index 123, so `parse(to_string(parse(s))) ≠ parse(s)`. -/
theorem C4_color_roundtrip_counterexample :
    Color.from_str (lit "+0+123") = .ok (.RGB 0 1 35) ∧
    Color.from_str (Color.display (.RGB 0 1 35)) = .ok (.Color256 123) ∧
    (Color.Color256 123) ≠ (Color.RGB 0 1 35) :=
  ⟨by decide, by decide, by decide⟩

/-- C4 amended: for every string whose trimmed, case-folded form is a
color token of the spec's grammar — a color name, a bare 0-255 decimal,
or exactly six hex digits — parsing, formatting with `Display` and
parsing again yields the same `Color` value. -/
theorem C4_color_roundtrip_amended :
    ∀ (s : List Nat) (c : Color), SpecColorToken s →
      Color.from_str s = .ok c →
      Color.from_str (Color.display c) = .ok c := by
  intro s c htok hparse
  rcases htok with ⟨e, hmem, heq⟩ | ⟨hne, hdig, hle⟩ | ⟨hlen, hhex⟩
  · -- a color name
    have htbl := List.all_eq_true.mp colorNameTable_roundtrip e hmem
    rw [Bool.and_eq_true, decide_eq_true_eq, decide_eq_true_eq] at htbl
    obtain ⟨hlk, hrt⟩ := htbl
    have hs : Color.from_str s = .ok e.2 := by
      simp only [Color.from_str]
      rw [heq, hlk]
    rw [hs] at hparse
    injection hparse with hparse
    rw [← hparse]
    exact hrt
  · -- a bare 0-255 decimal
    have hlookup : colorNameTable.lookup (rust_to_lowercase (rust_trim s)) = none :=
      lookup_tbl_none _ _ isAsciiDigit hdig (by decide)
    have hpu := parse_u8_digits _ hne hdig hle
    have hs : Color.from_str s
        = .ok (.Color256 (decValue (rust_to_lowercase (rust_trim s)))) := by
      simp only [Color.from_str]
      rw [hlookup, hpu]
    rw [hs] at hparse
    injection hparse with hparse
    rw [← hparse]
    exact dec_roundtrip _ (by omega)
  · -- six hex digits
    obtain ⟨a, b, c2, d2, e2, f2, hteq⟩ :=
      list_len6 (rust_to_lowercase (rust_trim s)) hlen
    have hvals : ∀ x ∈ rust_to_lowercase (rust_trim s), hexDigitVal x < 16 := by
      intro x hx
      have := List.all_eq_true.mp hhex x hx
      unfold isHexDigitCh at this
      exact decide_eq_true_eq.mp this
    have hnoup := lower_no_upper (rust_trim s)
    have hlows : ∀ x ∈ rust_to_lowercase (rust_trim s), isHexLowerCh x = true :=
      fun x hx => hexLower_of x (hvals x hx) (hnoup x hx)
    rw [hteq] at hvals hlows
    have hva : hexDigitVal a < 16 := hvals a (by simp)
    have hvb : hexDigitVal b < 16 := hvals b (by simp)
    have hvc : hexDigitVal c2 < 16 := hvals c2 (by simp)
    have hvd : hexDigitVal d2 < 16 := hvals d2 (by simp)
    have hve : hexDigitVal e2 < 16 := hvals e2 (by simp)
    have hvf : hexDigitVal f2 < 16 := hvals f2 (by simp)
    have hlookup : colorNameTable.lookup ([a, b, c2, d2, e2, f2]) = none := by
      refine lookup_tbl_none _ _ isHexDigitCh ?_ (by decide)
      simp only [List.all_cons, List.all_nil, Bool.and_eq_true, isHexDigitCh]
      simp only [decide_eq_true_eq]
      exact ⟨hva, hvb, hvc, hvd, hve, hvf, trivial⟩
    have hutf : utf8Encode [a, b, c2, d2, e2, f2] = [a, b, c2, d2, e2, f2] := by
      refine utf8Encode_ascii _ (fun x hx => ?_)
      rcases List.mem_cons.mp hx with rfl | hx
      · exact hex_ascii _ hva
      rcases List.mem_cons.mp hx with rfl | hx
      · exact hex_ascii _ hvb
      rcases List.mem_cons.mp hx with rfl | hx
      · exact hex_ascii _ hvc
      rcases List.mem_cons.mp hx with rfl | hx
      · exact hex_ascii _ hvd
      rcases List.mem_cons.mp hx with rfl | hx
      · exact hex_ascii _ hve
      rcases List.mem_cons.mp hx with rfl | hx
      · exact hex_ascii _ hvf
      · cases hx
    simp only [Color.from_str, hteq, hlookup] at hparse
    cases hpu : parse_u8 [a, b, c2, d2, e2, f2] with
    | some v =>
      rw [hpu] at hparse
      injection hparse with hparse
      rw [← hparse]
      exact dec_roundtrip v (by have := parse_u8_sound hpu; omega)
    | none =>
      rw [hpu, hutf] at hparse
      rw [if_neg (by simp)] at hparse
      rw [show ([a, b, c2, d2, e2, f2]).take 2 = [a, b] from rfl,
        show (([a, b, c2, d2, e2, f2]).drop 2).take 2 = [c2, d2] from rfl,
        show ([a, b, c2, d2, e2, f2]).drop 4 = [e2, f2] from rfl,
        parse_hex_pair a b hva hvb, parse_hex_pair c2 d2 hvc hvd,
        parse_hex_pair e2 f2 hve hvf] at hparse
      injection hparse with hparse
      rw [← hparse]
      have hdisp : Color.display (.RGB (16 * hexDigitVal a + hexDigitVal b)
          (16 * hexDigitVal c2 + hexDigitVal d2)
          (16 * hexDigitVal e2 + hexDigitVal f2)) = [a, b, c2, d2, e2, f2] := by
        simp only [Color.display]
        rw [hex2_combine _ _ hva hvb, hex2_combine _ _ hvc hvd,
          hex2_combine _ _ hve hvf,
          hexDigitCh_of_lower a (hlows a (by simp)),
          hexDigitCh_of_lower b (hlows b (by simp)),
          hexDigitCh_of_lower c2 (hlows c2 (by simp)),
          hexDigitCh_of_lower d2 (hlows d2 (by simp)),
          hexDigitCh_of_lower e2 (hlows e2 (by simp)),
          hexDigitCh_of_lower f2 (hlows f2 (by simp))]
        rfl
      rw [hdisp]
      have hnws : ∀ x ∈ [a, b, c2, d2, e2, f2], rust_is_whitespace x = false := by
        intro x hx
        fin_cases hx
        · exact hex_not_ws _ hva
        · exact hex_not_ws _ hvb
        · exact hex_not_ws _ hvc
        · exact hex_not_ws _ hvd
        · exact hex_not_ws _ hve
        · exact hex_not_ws _ hvf
      have hnup : ∀ x ∈ [a, b, c2, d2, e2, f2], ¬ (0x41 ≤ x ∧ x ≤ 0x5A) := by
        intro x hx
        rw [← hteq] at hx
        exact hnoup x hx
      simp only [Color.from_str, trim_eq_self _ hnws, lower_eq_self _ hnup,
        hlookup, hpu, hutf]
      rw [if_neg (by simp)]
      rw [show ([a, b, c2, d2, e2, f2]).take 2 = [a, b] from rfl,
        show (([a, b, c2, d2, e2, f2]).drop 2).take 2 = [c2, d2] from rfl,
        show ([a, b, c2, d2, e2, f2]).drop 4 = [e2, f2] from rfl,
        parse_hex_pair a b hva hvb, parse_hex_pair c2 d2 hvc hvd,
        parse_hex_pair e2 f2 hve hvf]

/-- C4 witness: the amended round-trip at the concrete tokens `red` and
`00ff7f`. -/
theorem C4_color_roundtrip_amended_witness :
    Color.from_str (Color.display (.Color4 .Red false)) = .ok (.Color4 .Red false) ∧
    Color.from_str (Color.display (.RGB 0 255 127)) = .ok (.RGB 0 255 127) :=
  ⟨C4_color_roundtrip_amended (lit "red") (.Color4 .Red false)
      (Or.inl ⟨(lit "red", .Color4 .Red false), by decide, by decide⟩) (by decide),
   C4_color_roundtrip_amended (lit "00ff7f") (.RGB 0 255 127)
      (Or.inr (Or.inr ⟨by decide, by decide⟩)) (by decide)⟩

end RS3A
